import Mathlib

/-!
Verification development for the dymos trajectory-linkage engine and the
pseudospectral timeseries resampling engine.

The development shallowly embeds the two core source files:

* `dymos/transcriptions/pseudospectral/components/pseudospectral_timeseries_output_comp.py`
  (grid mapper and timeseries output registry), and
* `dymos/trajectory/trajectory.py`
  (linkage registry, expansion, validation, resolution and emission).

Numeric node coordinates and multipliers are modelled as rationals, Python
dictionaries as association lists with replace-in-place update semantics
(matching CPython dict assignment, which keeps the insertion position of an
existing key), and raised exceptions as `Except` errors carrying the data
that the corresponding message interpolates.  Collaborator objects (phases,
the hosting framework) are modelled as records of the query functions the
source actually calls on them.
-/

/-! ## Association-list helpers (Python `dict` semantics) -/

/-- Lookup in an association list: the value at the first matching key. -/
def alFind {κ α : Type} [DecidableEq κ] (l : List (κ × α)) (k : κ) : Option α :=
  match l with
  | [] => none
  | (k', v) :: t => if k' = k then some v else alFind t k

/-- `d[k] = v` on an association list: replace in place if the key exists
(keeping its position, as CPython dicts do), else append at the end. -/
def alSet {κ α : Type} [DecidableEq κ] (k : κ) (v : α) (l : List (κ × α)) :
    List (κ × α) :=
  match l with
  | [] => [(k, v)]
  | (k', v') :: t => if k' = k then (k, v) :: t else (k', v') :: alSet k v t

/-- `d.pop(k)` on an association list: remove the first entry with key `k`. -/
def alErase {κ α : Type} [DecidableEq κ] (k : κ) (l : List (κ × α)) :
    List (κ × α) :=
  match l with
  | [] => []
  | (k', v') :: t => if k' = k then t else (k', v') :: alErase k t


/-! ## Grid mapper: `PseudospectralTimeseriesOutputComp.setup`

Node coordinates are modelled as rationals.  A `GridData` carries the
per-segment node lists in the two local parametrizations used by the source
(`node_ptau` split by `segment_indices`, and `node_stau`), the segment
boundaries, and the subset-to-node mapping.  `GridData` itself lives outside
`src/` (it belongs to the grid-data collaborator), so its shape is modelled
from the spec, section 3 ("Grid"): ordered segment boundaries, per-segment
node coordinates in the segment-local and whole-phase parametrizations, and
a named subset mapping. -/

structure GridData where
  seg_ptau : List (List ℚ)
  seg_stau : List (List ℚ)
  segment_ends : List ℚ
  subset_nodes : String → List ℚ

def GridData.num_segments (g : GridData) : ℕ := g.seg_ptau.length

def GridData.node_ptau (g : GridData) : List ℚ := g.seg_ptau.flatten

def GridData.num_nodes (g : GridData) : ℕ := g.node_ptau.length

/-- One per-segment block of the interpolation/differentiation operators:
the output nodes captured by the segment (phase tau), the same nodes
rescaled to the segment-local [-1, 1] coordinate, and the segment's input
nodes in segment tau. -/
structure SegBlock where
  optau : List ℚ
  ostau : List ℚ
  istau : List ℚ
deriving DecidableEq, Repr

/-- `ostau_segi = 2.0 * (optau_segi - iptau_segi[0]) / (iptau_segi[-1] - iptau_segi[0]) - 1`. -/
def rescaleToSegment (iptau : List ℚ) (optau : List ℚ) : List ℚ :=
  optau.map (fun x => 2 * (x - iptau.headD 0) / (iptau.getLastD 0 - iptau.headD 0) - 1)

/-- The per-segment capture loop of `setup` (lines 63-87 of
`pseudospectral_timeseries_output_comp.py`).  `sameGrid` is the `ogd is igd`
object-identity test; `segs` zips each segment's ptau and stau node lists;
`i` is `iseg`; `remaining` is the not-yet-consumed `output_nodes_ptau`.
For all but the last segment the captured nodes are the boolean-mask
selection `output_nodes_ptau[output_nodes_ptau <= ptau_hi]`; the final
segment absorbs every remaining node; then a prefix of the captured length
is removed from the remaining nodes. -/
def captureSegs (sameGrid : Bool) (segment_ends : List ℚ)
    (segs : List (List ℚ × List ℚ)) (i : ℕ) (remaining : List ℚ) :
    List SegBlock :=
  match segs with
  | [] => []
  | (iptau, istau) :: rest =>
    if sameGrid then
      { optau := iptau, ostau := rescaleToSegment iptau iptau, istau := istau } ::
        captureSegs sameGrid segment_ends rest (i + 1) remaining
    else
      let optau := if rest.isEmpty then remaining
                   else remaining.filter (fun x => x ≤ segment_ends.getD (i + 1) 0)
      { optau := optau, ostau := rescaleToSegment iptau optau, istau := istau } ::
        captureSegs sameGrid segment_ends rest (i + 1) (remaining.drop optau.length)

/-- Modelled from the spec: `lagrange_matrices(istau, ostau)` lives in
`dymos/utils/lagrange.py`, which is not under `src/`.  Per spec section 4.1
step 4 it returns a Lagrange interpolation matrix mapping values at the
input nodes to values at the output nodes, and the matching differentiation
matrix; only the dimensions of the pair are modelled here: each matrix has
one row per output node and one column per input node. -/
structure MatrixShape where
  rows : ℕ
  cols : ℕ
deriving DecidableEq, Repr

def lagrange_matrices (istau ostau : List ℚ) : MatrixShape × MatrixShape :=
  (⟨ostau.length, istau.length⟩, ⟨ostau.length, istau.length⟩)

/-- `scipy.sparse.block_diag`: the shape of a block-diagonal assembly. -/
def block_diag_shape (blocks : List MatrixShape) : MatrixShape :=
  ⟨(blocks.map MatrixShape.rows).sum, (blocks.map MatrixShape.cols).sum⟩

structure TimeseriesSetupResult where
  no_interp : Bool
  input_num_nodes : ℕ
  output_num_nodes : ℕ
  blocks : List SegBlock
  interpolation_matrix : MatrixShape
  differentiation_matrix : MatrixShape
deriving DecidableEq, Repr

namespace PseudospectralTimeseriesOutputComp

/-- `PseudospectralTimeseriesOutputComp.setup` (lines 38-96).  `ogdOpt = none`
models `output_grid_data` being `None` or the very `input_grid_data` object
(the `ogd is igd` identity test); `some ogd` models a distinct output grid.
Note that the interpolation and differentiation matrices are assembled
unconditionally: the `_no_interp` flag does not skip the block loop. -/
def setup (igd : GridData) (ogdOpt : Option GridData) (output_subset : String) :
    TimeseriesSetupResult :=
  let ogd := ogdOpt.getD igd
  let sameGrid := ogdOpt.isNone
  let no_interp := sameGrid && (output_subset == "all")
  let output_nodes_ptau := ogd.subset_nodes output_subset
  let blocks := captureSegs sameGrid igd.segment_ends
    (igd.seg_ptau.zip igd.seg_stau) 0 output_nodes_ptau
  let L_blocks := blocks.map (fun b => (lagrange_matrices b.istau b.ostau).1)
  let D_blocks := blocks.map (fun b => (lagrange_matrices b.istau b.ostau).2)
  { no_interp := no_interp
    input_num_nodes := igd.num_nodes
    output_num_nodes := output_nodes_ptau.length
    blocks := blocks
    interpolation_matrix := block_diag_shape L_blocks
    differentiation_matrix := block_diag_shape D_blocks }

/-- Per-variable body of `compute` (lines 196-216).  The sparse dot products
with the interpolation and differentiation matrices and the broadcast
division by `dt_dstau` are abstracted as functions on value vectors; the
branch structure (fast path, rate composition, stored conversion factor
`scale * (vals + offset)`) is translated directly. -/
def computeVar (no_interp : Bool) (interpDot : List ℚ → List ℚ)
    (diffDotOverDt : List ℚ → List ℚ) (vals : List ℚ) (is_rate : Bool)
    (conversion : Option (ℚ × ℚ)) : List ℚ :=
  let interp_vals := if no_interp then vals else interpDot vals
  let interp_vals := if is_rate then diffDotOverDt interp_vals else interp_vals
  match conversion with
  | some (scale, offset) => interp_vals.map (fun v => scale * (v + offset))
  | none => interp_vals

end PseudospectralTimeseriesOutputComp

/-- The validity conditions under which `setup`'s interpolation operator is
well formed (spec sections 3 and 4.1): at least one segment; the stau and
ptau per-segment node lists describe the same nodes (equal lengths
segment by segment); and either the output grid is the input grid with the
full subset requested, or it is a distinct grid whose requested subset
nodes are sorted by the phase-relative coordinate (the spec makes monotone
output node ordering a precondition of the partition invariant). -/
def ValidGridPair (igd : GridData) (ogdOpt : Option GridData)
    (subset : String) : Prop :=
  igd.seg_ptau ≠ [] ∧
  igd.seg_stau.map List.length = igd.seg_ptau.map List.length ∧
  (match ogdOpt with
   | none => subset = "all" ∧ igd.subset_nodes "all" = igd.seg_ptau.flatten
   | some ogd => ((ogd.subset_nodes subset).Sorted (· ≤ ·)))

/-! ## Phases as collaborator records

`trajectory.py` queries its phases only through the surface listed in spec
section 6: the option dictionaries, the fixedness predicates, `classify_var`,
the time options, the transcription's `_rhs_source` and ODE metadata lookup
(`get_source_metadata`, which raises for an unknown variable, modelled as an
`Option` result).  Option dictionaries are modelled as total lookup
functions plus the key lists used for iteration and membership tests. -/

/-- The classification strings returned by `Phase.classify_var`. -/
inductive VarCls where
  | t
  | t_phase
  | state
  | indep_control
  | input_control
  | control_rate
  | control_rate2
  | indep_polynomial_control
  | input_polynomial_control
  | polynomial_control_rate
  | polynomial_control_rate2
  | parameter
  | ode
deriving DecidableEq, Repr

/-- A units/shape/opt record from a phase option dictionary. -/
structure OptRec where
  units : Option String
  shape : List ℕ
  opt : Bool
deriving DecidableEq, Repr

structure Phase where
  pathname : String
  is_analytic : Bool
  classify_var : String → VarCls
  time_name : String
  time_units : Option String
  state_names : List String
  parameter_names : List String
  state_options : String → OptRec
  control_options : String → OptRec
  polynomial_control_options : String → OptRec
  parameter_options : String → OptRec
  is_time_fixed : String → Bool
  is_state_fixed : String → String → Bool
  is_control_fixed : String → String → Bool
  is_polynomial_control_fixed : String → String → Bool
  is_control_rate_fixed : String → String → Bool
  rhs_source : String
  ode_meta : String → Option (Option String × List ℕ)

/-- Modelled from the spec: `get_rate_units` lives in `dymos/utils/misc.py`,
outside `src/`.  Spec section 4.3: derive the units of the first or second
time derivative of a variable by dividing the base unit by the time unit
raised to the derivative order; `None` base or time units give `None`. -/
def get_rate_units (base : Option String) (time : Option String) (deriv : ℕ) :
    Option String :=
  match base, time with
  | some b, some t => some (b ++ "/" ++ t ++ (if deriv = 2 then "**2" else ""))
  | _, _ => none

/-! ## Linkage options and registry (`trajectory.py`) -/

/-- The `LinkageOptionsDictionary` fields set by `add_linkage_constraint`
(lines 1016-1034) plus the fields populated during configure
(`_src_a`, `_src_b`, `shape`, `units_a`, `units_b`).  A value of type
`Option (Option String)` distinguishes `_unspecified` (`none`) from an
explicit `None` (`some none`) and an explicit unit string (`some (some u)`).
Multipliers and bounds are rationals. -/
structure LinkageOptionsDictionary where
  phase_a : String
  phase_b : String
  var_a : String
  var_b : String
  loc_a : String
  loc_b : String
  mult_a : ℚ
  mult_b : ℚ
  units : Option (Option String)
  lower : Option ℚ
  upper : Option ℚ
  equals : Option ℚ
  scaler : Option ℚ
  adder : Option ℚ
  ref0 : Option ℚ
  ref : Option ℚ
  linear : Bool
  connected : Bool
  units_a : Option (Option String)
  units_b : Option (Option String)
  shape : List ℕ
  src_a : String
  src_b : String
deriving DecidableEq, Repr

/-- `self._linkages`: ordered dict from phase pair to an ordered dict from
variable pair to linkage options. -/
abbrev Linkages :=
  List ((String × String) × List ((String × String) × LinkageOptionsDictionary))

def linkages_get (links : Linkages) (pp : String × String)
    (vp : String × String) : Option LinkageOptionsDictionary :=
  match alFind links pp with
  | none => none
  | some inner => alFind inner vp

/-- Lines 1013-1016: create the inner dict if the phase pair is new, then
assign the variable-pair entry (replacing any previous one in place). -/
def linkages_set (links : Linkages) (pp : String × String)
    (vp : String × String) (d : LinkageOptionsDictionary) : Linkages :=
  match alFind links pp with
  | none => links ++ [(pp, [(vp, d)])]
  | some inner => alSet pp (alSet vp d inner) links

/-- `self._linkages[phase_pair].pop(var_pair)` (line 639). -/
def linkages_pop (links : Linkages) (pp : String × String)
    (vp : String × String) : Linkages :=
  match alFind links pp with
  | none => links
  | some inner => alSet pp (alErase vp inner) links

namespace Trajectory

/-- The dictionary stored by `add_linkage_constraint` (lines 1016-1034),
with the resolved multipliers and the configure-time fields at their
initial values. -/
def mkLinkageOptions (phase_a phase_b var_a var_b loc_a loc_b : String)
    (mult_a mult_b : ℚ) (units : Option (Option String))
    (lower upper equals scaler adder ref0 ref : Option ℚ)
    (linear connected : Bool) : LinkageOptionsDictionary :=
  { phase_a := phase_a, phase_b := phase_b, var_a := var_a, var_b := var_b
    loc_a := loc_a, loc_b := loc_b, mult_a := mult_a, mult_b := mult_b
    units := units, lower := lower, upper := upper, equals := equals
    scaler := scaler, adder := adder, ref0 := ref0, ref := ref
    linear := linear, connected := connected
    units_a := none, units_b := none, shape := [], src_a := "", src_b := "" }

/-- The registration performed by `add_linkage_constraint` once the
deprecated `sign_a`/`sign_b` options have been resolved into multipliers. -/
def add_linkage_constraint_core (links : Linkages)
    (phase_a phase_b var_a var_b loc_a loc_b : String) (mult_a mult_b : ℚ)
    (units : Option (Option String))
    (lower upper equals scaler adder ref0 ref : Option ℚ)
    (linear connected : Bool) : Linkages :=
  linkages_set links (phase_a, phase_b) (var_a, var_b)
    (mkLinkageOptions phase_a phase_b var_a var_b loc_a loc_b mult_a mult_b
      units lower upper equals scaler adder ref0 ref linear connected)

/-- `Trajectory.add_linkage_constraint` (lines 874-1034).  `sign_a`/`sign_b`
are the deprecated multiplier options: supplying one of them together with
the corresponding `mult` option raises a `ValueError` (the deprecation
warning itself is non-fatal and not modelled); otherwise a missing
multiplier defaults to `1.0` for side a and `-1.0` for side b.  The
`UnusedOptionWarning` for irrelevant options on connected linkages is a
non-fatal warning and is likewise not modelled. -/
def add_linkage_constraint (links : Linkages)
    (phase_a phase_b var_a var_b loc_a loc_b : String)
    (sign_a sign_b mult_a mult_b : Option ℚ)
    (units : Option (Option String))
    (lower upper equals scaler adder ref0 ref : Option ℚ)
    (linear connected : Bool) : Except String Linkages :=
  if sign_a.isSome ∧ mult_a.isSome then
    .error "both sign_a and mult_a specified"
  else if sign_b.isSome ∧ mult_b.isSome then
    .error "both sign_b and mult_b specified"
  else
    let ma : ℚ := match sign_a, mult_a with
      | some s, _ => s
      | none, some m => m
      | none, none => 1
    let mb : ℚ := match sign_b, mult_b with
      | some s, _ => s
      | none, some m => m
      | none, none => -1
    .ok (add_linkage_constraint_core links phase_a phase_b var_a var_b loc_a
      loc_b ma mb units lower upper equals scaler adder ref0 ref linear
      connected)

/-! ### `_setup_linkages` (lines 305-348) -/

/-- The phase-option mutations and subsystem additions performed during
`_setup_linkages`, recorded as actions. -/
inductive SetupAction where
  | set_time_input_initial (phase : String)
  | set_state_input_initial (phase state : String) (fix_initial_unspecified : Bool)
  | set_parameter_no_opt (phase param : String)
  | add_linkage_comp
deriving DecidableEq, Repr

/-- The exceptions `_setup_linkages` can raise, carrying the data its
messages interpolate: `ValueError` for a phase missing from the trajectory
and `RuntimeError` (the `err_template` naming the trajectory, both phases
and both variables) for a connected state linkage into an `AnalyticPhase`. -/
inductive SetupError where
  | missing_phase (phase traj : String)
  | analytic_phase_link (traj phase1 phase2 var1 var2 : String)
deriving DecidableEq, Repr

/-- The `for state_name in phase2.state_options` loop inside the `'*'`
branch (lines 330-335): each iteration raises if `phase2` is analytic,
else marks the state's initial value as an input
(`fix_initial=_unspecified`). -/
def setup_star_states (traj p1 p2 : String) (analytic : Bool)
    (var1 var2 : String) : List String → Except SetupError (List SetupAction)
  | [] => .ok []
  | s :: rest =>
    if analytic then .error (.analytic_phase_link traj p1 p2 var1 var2)
    else
      match setup_star_states traj p1 p2 analytic var1 var2 rest with
      | .ok acts => .ok (.set_state_input_initial p2 s true :: acts)
      | .error e => .error e

/-- One `(var1, var2) -> options` entry of the inner loop of
`_setup_linkages` (lines 322-345).  Returns the recorded phase-option
actions together with the contribution to `has_linkage_constraints`. -/
def setup_linkage_var (traj : String) (pair : String × String) (phase2 : Phase)
    (vp : String × String) (opts : LinkageOptionsDictionary) :
    Except SetupError (List SetupAction × Bool) :=
  let var1 := vp.1
  let var2 := vp.2
  if opts.connected then
    if var2 = "time" then
      .ok ([.set_time_input_initial pair.2], false)
    else if var2 = "*" then
      match setup_star_states traj pair.1 pair.2 phase2.is_analytic var1 var2
          phase2.state_names with
      | .ok acts => .ok (.set_time_input_initial pair.2 :: acts, false)
      | .error e => .error e
    else if var2 ∈ phase2.state_names then
      if phase2.is_analytic then
        .error (.analytic_phase_link traj pair.1 pair.2 var1 var2)
      else
        .ok ([.set_state_input_initial pair.2 var2 false], false)
    else if var2 ∈ phase2.parameter_names then
      .ok ([.set_parameter_no_opt pair.2 var2], false)
    else
      .ok ([], false)
  else
    .ok ([], true)

/-- The inner loop over a phase pair's variable dictionary. -/
def setup_linkage_vars (traj : String) (pair : String × String) (phase2 : Phase) :
    List ((String × String) × LinkageOptionsDictionary) →
    Except SetupError (List SetupAction × Bool)
  | [] => .ok ([], false)
  | (vp, opts) :: rest =>
    match setup_linkage_var traj pair phase2 vp opts with
    | .error e => .error e
    | .ok (acts, hc) =>
      match setup_linkage_vars traj pair phase2 rest with
      | .error e => .error e
      | .ok (acts', hc') => .ok (acts ++ acts', hc || hc')

/-- The outer loop of `_setup_linkages` over phase pairs, with the phase
existence check (lines 315-318) performed for each pair before its
variable dictionary is processed. -/
def setup_linkages_pairs (traj : String) (phase_names : List String)
    (phases : String → Phase) :
    List ((String × String) × List ((String × String) × LinkageOptionsDictionary)) →
    Except SetupError (List SetupAction × Bool)
  | [] => .ok ([], false)
  | (pair, var_dict) :: rest =>
    if pair.1 ∉ phase_names then .error (.missing_phase pair.1 traj)
    else if pair.2 ∉ phase_names then .error (.missing_phase pair.2 traj)
    else
      match setup_linkage_vars traj pair (phases pair.2) var_dict with
      | .error e => .error e
      | .ok (acts, hc) =>
        match setup_linkages_pairs traj phase_names phases rest with
        | .error e => .error e
        | .ok (acts', hc') => .ok (acts ++ acts', hc || hc')

/-- `Trajectory._setup_linkages` (lines 305-348): iterate the linkage
registry, validate phase existence, apply the connected-linkage phase
option mutations (with the analytic-phase restriction), and add the
`PhaseLinkageComp` subsystem when any constraint-mode linkage exists. -/
def _setup_linkages (traj : String) (phase_names : List String)
    (phases : String → Phase) (links : Linkages) :
    Except SetupError (List SetupAction) :=
  match setup_linkages_pairs traj phase_names phases links with
  | .error e => .error e
  | .ok (acts, has_linkage_constraints) =>
    .ok (if has_linkage_constraints then acts ++ [.add_linkage_comp] else acts)

end Trajectory

namespace Trajectory

/-! ### `_update_linkage_options_configure` (lines 498-607) -/

/-- The exceptions the configure pass can raise, carrying the data their
messages interpolate. -/
inductive ConfigError where
  /-- `RuntimeError` (lines 587-589): a variable was not found in a phase
  or its ODE; fields: `var_a`, `phase_a`, `var_b`, `phase_b` of the
  linkage, the missing variable, and the failing phase's pathname. -/
  | ode_lookup (var_a phase_a var_b phase_b missing_var phase_path : String)
  /-- `ValueError` (lines 603-605): constraint-mode linkage with differing
  per-side units and no explicit override; fields: the trajectory pathname
  and the resolved units of both sides. -/
  | units_not_specified (traj : String) (units_a units_b : Option String)
  /-- `om.OpenMDAOWarning` raised at lines 816-821: a connected linkage
  whose target class is not time, a state, or a parameter; the message
  instructs removing the linkage or specifying `connected=False`. -/
  | invalid_connection_class (phase_a var_a phase_b var_b : String)
  /-- `ValueError` (lines 826-832): constraint-mode linkage with both sides
  fixed; fields: the trajectory pathname and the location, variable and
  phase of both sides. -/
  | both_fixed (traj loc_a var_a phase_a loc_b var_b phase_b : String)
  /-- `ValueError` (lines 439-440): a trajectory parameter with
  `shape=_unspecified` connected to phase targets of differing shapes. -/
  | param_shape_mismatch (traj name : String)
deriving DecidableEq, Repr

/-- The per-side classification dispatch of
`_update_linkage_options_configure` (lines 536-589): resolve a linkage
variable to its timeseries source path, units and shape.  The `ode`
fallback consults the phase's ODE metadata and fails
(`get_source_metadata` raising `ValueError`) when the variable is absent. -/
def resolve_linkage_var (phase : Phase) (var : String) :
    Except Unit (String × Option String × List ℕ) :=
  match phase.classify_var var with
  | .t => .ok ("timeseries." ++ phase.time_name, phase.time_units, [1])
  | .t_phase =>
    .ok ("timeseries." ++ phase.time_name ++ "_phase", phase.time_units, [1])
  | .state =>
    .ok ("timeseries.states:" ++ var, (phase.state_options var).units,
      (phase.state_options var).shape)
  | .indep_control =>
    .ok ("timeseries.controls:" ++ var, (phase.control_options var).units,
      (phase.control_options var).shape)
  | .input_control =>
    .ok ("timeseries.controls:" ++ var, (phase.control_options var).units,
      (phase.control_options var).shape)
  | .control_rate =>
    let control_name := var.dropRight 5
    .ok ("timeseries.control_rates:" ++ var,
      get_rate_units (phase.control_options control_name).units
        phase.time_units 1,
      (phase.control_options control_name).shape)
  | .control_rate2 =>
    let control_name := var.dropRight 6
    .ok ("timeseries.control_rates:" ++ var,
      get_rate_units (phase.control_options control_name).units
        phase.time_units 2,
      (phase.control_options control_name).shape)
  | .indep_polynomial_control =>
    .ok ("timeseries.polynomial_controls:" ++ var,
      (phase.polynomial_control_options var).units,
      (phase.polynomial_control_options var).shape)
  | .input_polynomial_control =>
    .ok ("timeseries.polynomial_controls:" ++ var,
      (phase.polynomial_control_options var).units,
      (phase.polynomial_control_options var).shape)
  | .polynomial_control_rate =>
    let control_name := var.dropRight 5
    .ok ("timeseries.polynomial_control_rates:" ++ var,
      get_rate_units (phase.polynomial_control_options control_name).units
        phase.time_units 1,
      (phase.polynomial_control_options control_name).shape)
  | .polynomial_control_rate2 =>
    let control_name := var.dropRight 6
    .ok ("timeseries.polynomial_control_rates:" ++ var,
      get_rate_units (phase.polynomial_control_options control_name).units
        phase.time_units 2,
      (phase.polynomial_control_options control_name).shape)
  | .parameter =>
    .ok ("parameter_vals:" ++ var, (phase.parameter_options var).units,
      (phase.parameter_options var).shape)
  | .ode =>
    match phase.ode_meta var with
    | some (u, sh) => .ok (phase.rhs_source ++ "." ++ var, u, sh)
    | none => .error ()

/-- `Trajectory._update_linkage_options_configure` (lines 498-607): resolve
both sides, fill the per-side units if unspecified, raise when a
constraint-mode linkage has mismatched units without an explicit override,
and otherwise adopt side a's resolved units as the linkage units; the
linkage shape becomes side b's shape and the source paths are recorded. -/
def _update_linkage_options_configure (traj : String)
    (phases : String → Phase) (opts : LinkageOptionsDictionary) :
    Except ConfigError LinkageOptionsDictionary :=
  let phase_a := phases opts.phase_a
  let phase_b := phases opts.phase_b
  match resolve_linkage_var phase_a opts.var_a with
  | .error _ =>
    .error (.ode_lookup opts.var_a opts.phase_a opts.var_b opts.phase_b
      opts.var_a phase_a.pathname)
  | .ok (src_a, ua, _sha) =>
    match resolve_linkage_var phase_b opts.var_b with
    | .error _ =>
      .error (.ode_lookup opts.var_a opts.phase_a opts.var_b opts.phase_b
        opts.var_b phase_b.pathname)
    | .ok (src_b, ub, shb) =>
      let units_a : Option String := match opts.units_a with
        | none => ua
        | some u => u
      let units_b : Option String := match opts.units_b with
        | none => ub
        | some u => u
      if opts.connected = false ∧ units_a ≠ units_b ∧ opts.units = none then
        .error (.units_not_specified traj ua ub)
      else
        .ok { opts with
                units_a := some units_a
                units_b := some units_b
                units := some ua
                shape := shb
                src_a := src_a
                src_b := src_b }

/-! ### `_configure_linkages` (lines 703-851), per-linkage body -/

/-- The index selectors the emission step passes to `connect`:
`src_indices=[-1], flat_src_indices=True` for time, `om.slicer[-1, ...]`
for states and parameters, `om.slicer[[0, -1], ...]` for constraint-mode
boundary gathering. -/
inductive SrcIndices where
  | lastFlat
  | lastEllipsis
  | firstLastEllipsis
deriving DecidableEq, Repr

/-- The externally visible effects of the per-linkage configure body:
`self.connect(src, tgt, src_indices)` calls and
`linkage_comp.add_linkage_configure(options)` calls. -/
inductive ConfigAction where
  | connect (src tgt : String) (idx : SrcIndices)
  | add_linkage_configure (opts : LinkageOptionsDictionary)
deriving DecidableEq, Repr

/-- Modelled from the spec: the input names generated by
`PhaseLinkageComp.add_linkage_configure` (`options._input_a`/`_input_b`;
`phase_linkage_comp.py` is not under `src/`).  Spec section 4.4 step 6:
shared-input deduplication is keyed by a generated input name identifying
the distinct (phase, source) pair. -/
def linkage_input_name (phase src : String) : String := phase ++ ":" ++ src

/-- The fixedness dispatch of `_configure_linkages` (lines 764-792): time
and states ask the phase, controls and control rates ask the matching
predicate, parameters are fixed when not optimized, and every other class
is treated as free. -/
def fixed_of (phase : Phase) (cls : VarCls) (var loc : String) : Bool :=
  match cls with
  | .t => phase.is_time_fixed loc
  | .state => phase.is_state_fixed var loc
  | .input_control => phase.is_control_fixed var loc
  | .indep_control => phase.is_control_fixed var loc
  | .input_polynomial_control => phase.is_polynomial_control_fixed var loc
  | .indep_polynomial_control => phase.is_polynomial_control_fixed var loc
  | .control_rate => phase.is_control_rate_fixed var loc
  | .control_rate2 => phase.is_control_rate_fixed var loc
  | .parameter => !(phase.parameter_options var).opt
  | _ => false

/-- The per-linkage body of `Trajectory._configure_linkages`
(lines 751-849): update/resolve the linkage options, compute per-side
fixedness, then either emit a direct connection (dispatching on the class
of the phase-b variable, raising for any class other than time, state or
parameter), or, in constraint mode, raise if both sides are fixed and
otherwise register the linkage on the shared `linkages` component and wire
each side's boundary values in, deduplicating inputs by generated name.
Returns the updated options, the emitted actions, and the updated
deduplication list `connected_linkage_inputs`. -/
def configure_linkage_step (traj : String) (phases : String → Phase)
    (opts : LinkageOptionsDictionary) (connected_inputs : List String) :
    Except ConfigError
      (LinkageOptionsDictionary × List ConfigAction × List String) :=
  let phase_a := phases opts.phase_a
  let phase_b := phases opts.phase_b
  let class_a := phase_a.classify_var opts.var_a
  let class_b := phase_b.classify_var opts.var_b
  match _update_linkage_options_configure traj phases opts with
  | .error e => .error e
  | .ok o =>
    let fixed_a := fixed_of phase_a class_a opts.var_a opts.loc_a
    let fixed_b := fixed_of phase_b class_b opts.var_b opts.loc_b
    if opts.connected then
      match class_b with
      | .t =>
        .ok (o, [.connect (opts.phase_a ++ "." ++ o.src_a)
          (opts.phase_b ++ ".t_initial") .lastFlat], connected_inputs)
      | .state =>
        .ok (o, [.connect (opts.phase_a ++ "." ++ o.src_a)
          (opts.phase_b ++ ".initial_states:" ++ opts.var_b) .lastEllipsis],
          connected_inputs)
      | .parameter =>
        .ok (o, [.connect (opts.phase_a ++ "." ++ o.src_a)
          (opts.phase_b ++ ".parameters:" ++ opts.var_b) .lastEllipsis],
          connected_inputs)
      | _ =>
        .error (.invalid_connection_class opts.phase_a opts.var_a
          opts.phase_b opts.var_b)
    else
      if fixed_a && fixed_b then
        .error (.both_fixed traj opts.loc_a opts.var_a opts.phase_a
          opts.loc_b opts.var_b opts.phase_b)
      else
        let input_a := linkage_input_name opts.phase_a o.src_a
        let input_b := linkage_input_name opts.phase_b o.src_b
        let step_a : List ConfigAction × List String :=
          if input_a ∈ connected_inputs then ([], connected_inputs)
          else ([.connect (opts.phase_a ++ "." ++ o.src_a)
            ("linkages." ++ input_a) .firstLastEllipsis],
            connected_inputs ++ [input_a])
        let step_b : List ConfigAction × List String :=
          if input_b ∈ step_a.2 then ([], step_a.2)
          else ([.connect (opts.phase_b ++ "." ++ o.src_b)
            ("linkages." ++ input_b) .firstLastEllipsis],
            step_a.2 ++ [input_b])
        .ok (o, .add_linkage_configure o :: (step_a.1 ++ step_b.1), step_b.2)

/-- `Trajectory._is_valid_linkage` (lines 641-701), kept for completeness:
it validates a linkage by per-side fixedness, but compares the
classification against the string `'time'` although `classify_var` returns
`'t'` for time, so its time branch is unreachable.  It is not called by the
configure pass, which re-implements the check inline. -/
def _is_valid_linkage (phases : String → Phase)
    (phase_name_a phase_name_b loc_a loc_b var_a var_b : String) :
    Bool × Bool :=
  let phase_a := phases phase_name_a
  let phase_b := phases phase_name_b
  let var_cls_a := phase_a.classify_var var_a
  let var_cls_b := phase_b.classify_var var_b
  let var_a_fixed :=
    if var_cls_a = .state then phase_a.is_state_fixed var_a loc_a else false
  let var_b_fixed :=
    if var_cls_b = .state then phase_b.is_state_fixed var_b loc_b else false
  (var_a_fixed && var_b_fixed, !(var_a_fixed && var_b_fixed))

/-! ### `_expand_star_linkage_configure` (lines 609-639) -/

/-- One entry of the expansion pass: if the variable pair is `('*', '*')`
add a `time` linkage and one linkage per state of phase b, each forwarding
only `loc_a`, `loc_b`, `mult_a` and `mult_b` from the wildcard (all other
arguments take the declaration-time defaults, in particular
`connected=False`), then pop the wildcard entry; any other variable pair is
left untouched. -/
def expand_entry (phases : String → Phase) (acc : Linkages)
    (pp : String × String) (vp : String × String)
    (opts : LinkageOptionsDictionary) : Linkages :=
  if vp = ("*", "*") then
    let acc1 := add_linkage_constraint_core acc pp.1 pp.2 "time" "time"
      opts.loc_a opts.loc_b opts.mult_a opts.mult_b none none none none
      none none none none false false
    let acc2 := (phases pp.2).state_names.foldl
      (fun a s => add_linkage_constraint_core a pp.1 pp.2 s s
        opts.loc_a opts.loc_b opts.mult_a opts.mult_b none none none none
        none none none none false false) acc1
    linkages_pop acc2 pp vp
  else acc

/-- `Trajectory._expand_star_linkage_configure` (lines 609-639): iterate
over a deep copy of the registry while mutating the live registry. -/
def _expand_star_linkage_configure (phases : String → Phase)
    (links : Linkages) : Linkages :=
  links.foldl
    (fun acc entry =>
      entry.2.foldl (fun a e => expand_entry phases a entry.1 e.1 e.2) acc)
    links

/-! ### `_configure_parameters` units/shape inference (lines 427-450) -/

/-- The shape and units inference of `Trajectory._configure_parameters`
(lines 435-450) for one trajectory parameter, given the shapes and units
of its phase targets.  An unspecified shape with conflicting target shapes
raises a `ValueError`; an unspecified units option with conflicting target
units CONSTRUCTS a `ValueError` expression that is neither raised nor
returned (source line 447), so the units silently remain unspecified. -/
def infer_parameter_options (traj name : String)
    (shape : Option (List ℕ)) (units : Option (Option String))
    (tgt_shapes : List (List ℕ)) (tgt_units : List (Option String)) :
    Except ConfigError (Option (List ℕ) × Option (Option String)) :=
  match shape with
  | some s =>
    .ok (some s,
      match units with
      | some u => some u
      | none =>
        if (tgt_units.dedup).length = 1 then some (tgt_units.headD none)
        else none)
  | none =>
    if (tgt_shapes.dedup).length = 1 then
      .ok (some (tgt_shapes.headD []),
        match units with
        | some u => some u
        | none =>
          if (tgt_units.dedup).length = 1 then some (tgt_units.headD none)
          else none)
    else
      .error (.param_shape_mismatch traj name)

end Trajectory

/-! ## Timeseries output registry: `_add_output_configure` (lines 98-183) -/

namespace PseudospectralTimeseriesOutputComp

/-- The mutable registry state of the component: `self._vars` (name to
(input name, output name, shape, rate flag)), `self._sources` (source path
to input name; the `src` argument may be `None`), `self._units` (input name
to units), the declared inputs and outputs (name, shape, units), the stored
conversion factors, and the declared partials.  A declared partial is
abstracted as (output name, input name, which operator was tiled: `true`
for the differentiation matrix, and the conversion scale baked into the
stored values when one was computed). -/
structure TSState where
  vars : List (String × (String × String × List ℕ × Bool))
  sources : List (Option String × String)
  units_map : List (String × Option String)
  inputs : List (String × List ℕ × Option String)
  outputs : List (String × List ℕ × Option String)
  conversion_factors : List (String × (ℚ × ℚ))
  partials : List (String × String × Bool × Option ℚ)
deriving DecidableEq, Repr

/-- `PseudospectralTimeseriesOutputComp._add_output_configure`
(lines 98-183).  `unit_conversion` is the openmdao collaborator computing a
(scale, offset) pair from two unit strings.  Returns
`added_source` together with the updated registry state.  An already
registered `name` returns `False` before any mutation; a known `src`
reuses its input slot (and that slot's stored units); a new `src`
allocates an input of shape `(input_num_nodes,) + shape`.  The output is
always added with shape `(output_num_nodes,) + shape`, and the partials
are declared from the interpolation (or, for rates, differentiation)
matrix, with the conversion scale baked in when both unit strings are
present. -/
def _add_output_configure (st : TSState)
    (input_num_nodes output_num_nodes : ℕ)
    (unit_conversion : String → String → ℚ × ℚ) (name : String)
    (units : Option String) (shape : List ℕ) (src : Option String)
    (rate : Bool) : Bool × TSState :=
  if (alFind st.vars name).isSome then
    (false, st)
  else
    let reuse := alFind st.sources src
    let input_name := match reuse with
      | some iname => iname
      | none => "input_values:" ++ name
    let input_units := match reuse with
      | some iname => (alFind st.units_map iname).getD none
      | none => units
    let added_source := reuse.isNone
    let st1 := match reuse with
      | some _ => st
      | none =>
        { st with
            inputs := st.inputs ++ [(input_name, input_num_nodes :: shape, units)]
            sources := alSet src input_name st.sources
            units_map := alSet input_name units st.units_map }
    let st2 := { st1 with
                   outputs := st1.outputs ++ [(name, output_num_nodes :: shape, units)]
                   vars := alSet name (input_name, name, shape, rate) st1.vars }
    let conv : Option (ℚ × ℚ) := match input_units, units with
      | some iu, some u => some (unit_conversion iu u)
      | _, _ => none
    let st3 := { st2 with
                   conversion_factors := match conv with
                     | some c => alSet name c st2.conversion_factors
                     | none => st2.conversion_factors
                   partials := st2.partials ++
                     [(name, input_name, rate, conv.map Prod.fst)] }
    (added_source, st3)

end PseudospectralTimeseriesOutputComp

/-! ## Concrete fixtures for witnesses and counterexamples -/

/-- A one-segment grid whose nodes are the segment ends. -/
def exampleGrid1 : GridData :=
  { seg_ptau := [[-1, 1]]
    seg_stau := [[-1, 1]]
    segment_ends := [-1, 1]
    subset_nodes := fun s => if s = "all" then [-1, 1] else [] }

/-- A two-segment input grid. -/
def exampleGrid2 : GridData :=
  { seg_ptau := [[-1, 0], [0, 1]]
    seg_stau := [[-1, 1], [-1, 1]]
    segment_ends := [-1, 0, 1]
    subset_nodes := fun s => if s = "all" then [-1, 0, 0, 1] else [] }

/-- A distinct output grid over the same span, with three sorted nodes. -/
def exampleGrid3 : GridData :=
  { seg_ptau := [[-1, 1]]
    seg_stau := [[-1, 1]]
    segment_ends := [-1, 1]
    subset_nodes := fun s => if s = "all" then [-1, 0, 1] else [] }

/-- A non-analytic phase with states `x`, `v`, parameter `m`, control `u`,
everything free, time units seconds and state `x` in meters. -/
def examplePhase (path : String) : Phase :=
  { pathname := path
    is_analytic := false
    classify_var := fun v =>
      if v = "t" then .t
      else if v = "x" ∨ v = "v" then .state
      else if v = "m" then .parameter
      else if v = "u" then .indep_control
      else .ode
    time_name := "t"
    time_units := some "s"
    state_names := ["x", "v"]
    parameter_names := ["m"]
    state_options := fun v =>
      if v = "x" then ⟨some "m", [1], false⟩ else ⟨some "m/s", [1], false⟩
    control_options := fun _ => ⟨some "rad", [1], false⟩
    polynomial_control_options := fun _ => ⟨some "rad", [1], false⟩
    parameter_options := fun _ => ⟨some "kg", [1], true⟩
    is_time_fixed := fun _ => false
    is_state_fixed := fun _ _ => false
    is_control_fixed := fun _ _ => false
    is_polynomial_control_fixed := fun _ _ => false
    is_control_rate_fixed := fun _ _ => false
    rhs_source := "rhs_all"
    ode_meta := fun v => if v = "y" then some (some "m", [1]) else none }

/-- Like `examplePhase` but with every state fixed at every location. -/
def examplePhaseFixed (path : String) : Phase :=
  { examplePhase path with is_state_fixed := fun _ _ => true }

/-- Like `examplePhase` but analytic. -/
def examplePhaseAnalytic (path : String) : Phase :=
  { examplePhase path with is_analytic := true }

/-- An analytic phase that declares no states at all. -/
def examplePhaseAnalyticNoStates (path : String) : Phase :=
  { examplePhase path with is_analytic := true, state_names := [] }

/-- Like `examplePhase` but with state `x` declared in feet. -/
def examplePhaseFeet (path : String) : Phase :=
  { examplePhase path with
      state_options := fun v =>
        if v = "x" then ⟨some "ft", [1], false⟩ else ⟨some "m/s", [1], false⟩ }

/-- A phase map serving `p1` and `p2` as free metric phases. -/
def examplePhases : String → Phase := fun n =>
  if n = "p1" then examplePhase "traj.phases.p1" else examplePhase "traj.phases.p2"

/-- A phase map where `p2` has fixed states. -/
def examplePhasesFixedB : String → Phase := fun n =>
  if n = "p1" then examplePhaseFixed "traj.phases.p1"
  else examplePhaseFixed "traj.phases.p2"

/-- A phase map where `p2` measures state `x` in feet. -/
def examplePhasesFeetB : String → Phase := fun n =>
  if n = "p1" then examplePhase "traj.phases.p1"
  else examplePhaseFeet "traj.phases.p2"

/-- A connected linkage of state `x` from `p1` to `p2` as declared by
`add_linkage_constraint` with connected birth options. -/
def exampleLinkConnected : LinkageOptionsDictionary :=
  Trajectory.mkLinkageOptions "p1" "p2" "x" "x" "final" "initial" 1 (-1)
    none none none none none none none none false true

/-- A constraint-mode linkage of state `x` from `p1` to `p2`. -/
def exampleLinkConstraint : LinkageOptionsDictionary :=
  Trajectory.mkLinkageOptions "p1" "p2" "x" "x" "final" "initial" 1 (-1)
    none none none none none none none none false false

/-- A wildcard linkage entry between `p1` and `p2`. -/
def exampleLinkStar : LinkageOptionsDictionary :=
  Trajectory.mkLinkageOptions "p1" "p2" "*" "*" "final" "initial" 1 (-1)
    none none none none none none none none false true

/-- An empty timeseries registry state. -/
def emptyTSState : PseudospectralTimeseriesOutputComp.TSState :=
  ⟨[], [], [], [], [], [], []⟩

/-- A trivial unit conversion collaborator: identity scale, zero offset. -/
def exampleUnitConversion : String → String → ℚ × ℚ := fun _ _ => (1, 0)


/-! ## Helper lemmas -/

theorem alFind_alSet_self {κ α : Type} [DecidableEq κ] (k : κ) (v : α)
    (l : List (κ × α)) : alFind (alSet k v l) k = some v := by
  induction l with
  | nil => simp [alSet, alFind]
  | cons h t ih =>
    by_cases hk : h.1 = k
    · simp [alSet, alFind, hk]
    · simp [alSet, alFind, hk, ih]

theorem alFind_alSet_ne {κ α : Type} [DecidableEq κ] {k k' : κ} (v : α)
    (l : List (κ × α)) (h : k' ≠ k) :
    alFind (alSet k v l) k' = alFind l k' := by
  induction l with
  | nil => simp [alSet, alFind, Ne.symm h]
  | cons hd t ih =>
    by_cases hk : hd.1 = k
    · subst hk
      simp [alSet, alFind, Ne.symm h]
    · by_cases hk' : hd.1 = k'
      · simp [alSet, alFind, hk, hk', h]
      · simp [alSet, alFind, hk, hk', ih]

theorem alSet_of_find_none {κ α : Type} [DecidableEq κ] {k : κ} {l : List (κ × α)}
    (v : α) (h : alFind l k = none) : alSet k v l = l ++ [(k, v)] := by
  induction l with
  | nil => simp [alSet]
  | cons hd t ih =>
    by_cases hk : hd.1 = k
    · simp [alFind, hk] at h
    · simp [alFind, hk] at h
      simp [alSet, hk, ih h]

theorem alFind_eq_none_of_keys {κ α : Type} [DecidableEq κ] {k : κ}
    {l : List (κ × α)} (h : ∀ e ∈ l, e.1 ≠ k) : alFind l k = none := by
  induction l with
  | nil => rfl
  | cons hd t ih =>
    have h1 := h hd (List.mem_cons_self _ _)
    simp [alFind, h1]
    exact ih (fun e he => h e (List.mem_cons_of_mem _ he))

theorem alFind_append_left {κ α : Type} [DecidableEq κ] {k : κ} {v : α}
    {l : List (κ × α)} (m : List (κ × α)) (h : alFind l k = some v) :
    alFind (l ++ m) k = some v := by
  induction l with
  | nil => simp [alFind] at h
  | cons hd t ih =>
    by_cases hk : hd.1 = k
    · simp [alFind, hk] at h ⊢
      exact h
    · simp [alFind, hk] at h ⊢
      exact ih h

theorem alFind_append_right {κ α : Type} [DecidableEq κ] {k : κ}
    {l : List (κ × α)} (m : List (κ × α)) (h : alFind l k = none) :
    alFind (l ++ m) k = alFind m k := by
  induction l with
  | nil => rfl
  | cons hd t ih =>
    by_cases hk : hd.1 = k
    · simp [alFind, hk] at h
    · simp [alFind, hk] at h ⊢
      exact ih h

theorem alErase_append_left {κ α : Type} [DecidableEq κ] {k : κ} {v : α}
    {l : List (κ × α)} (m : List (κ × α)) (h : alFind l k = some v) :
    alErase k (l ++ m) = alErase k l ++ m := by
  induction l with
  | nil => simp [alFind] at h
  | cons hd t ih =>
    by_cases hk : hd.1 = k
    · simp [alErase, hk]
    · simp [alFind, hk] at h
      simp [alErase, hk, ih h]

theorem alSet_keys_of_found {κ α : Type} [DecidableEq κ] {k : κ} {w : α}
    (v : α) {l : List (κ × α)} (h : alFind l k = some w) :
    (alSet k v l).map Prod.fst = l.map Prod.fst := by
  induction l with
  | nil => simp [alFind] at h
  | cons hd t ih =>
    by_cases hk : hd.1 = k
    · simp [alSet, hk]
    · simp [alFind, hk] at h
      simp [alSet, hk, ih h]

theorem alFind_none_not_mem_keys {κ α : Type} [DecidableEq κ] {k : κ}
    {l : List (κ × α)} (h : alFind l k = none) : k ∉ l.map Prod.fst := by
  induction l with
  | nil => simp
  | cons hd t ih =>
    by_cases hk : hd.1 = k
    · simp [alFind, hk] at h
    · simp [alFind, hk] at h
      simp only [List.map_cons, List.mem_cons]
      push_neg
      exact ⟨fun e => hk e.symm, ih h⟩

theorem alSet_keys_nodup {κ α : Type} [DecidableEq κ] (k : κ) (v : α)
    (l : List (κ × α)) (h : (l.map Prod.fst).Nodup) :
    ((alSet k v l).map Prod.fst).Nodup := by
  cases hf : alFind l k with
  | some w =>
    rw [alSet_keys_of_found v hf]
    exact h
  | none =>
    rw [alSet_of_find_none v hf, List.map_append]
    refine List.Nodup.append h (by simp) ?_
    intro a ha hb
    simp only [List.map_cons, List.map_nil, List.mem_singleton] at hb
    subst hb
    exact alFind_none_not_mem_keys hf ha

/-! ## Partition properties of the capture loop -/

theorem captureSegs_length (sg : Bool) (e : List ℚ)
    (segs : List (List ℚ × List ℚ)) (i : ℕ) (r : List ℚ) :
    (captureSegs sg e segs i r).length = segs.length := by
  induction segs generalizing i r with
  | nil => rfl
  | cons hd rest ih =>
    obtain ⟨iptau, istau⟩ := hd
    cases sg with
    | true => simp [captureSegs, ih]
    | false => simp [captureSegs, ih]

theorem captureSegs_istau (sg : Bool) (e : List ℚ)
    (segs : List (List ℚ × List ℚ)) (i : ℕ) (r : List ℚ) :
    (captureSegs sg e segs i r).map SegBlock.istau = segs.map Prod.snd := by
  induction segs generalizing i r with
  | nil => rfl
  | cons hd rest ih =>
    obtain ⟨iptau, istau⟩ := hd
    cases sg with
    | true => simp [captureSegs, ih]
    | false => simp [captureSegs, ih]

theorem captureSegs_ostau_len (sg : Bool) (e : List ℚ)
    (segs : List (List ℚ × List ℚ)) (i : ℕ) (r : List ℚ) :
    ∀ b ∈ captureSegs sg e segs i r, b.ostau.length = b.optau.length := by
  induction segs generalizing i r with
  | nil => intro b hb; simp [captureSegs] at hb
  | cons hd rest ih =>
    obtain ⟨iptau, istau⟩ := hd
    intro b hb
    cases sg with
    | true =>
      simp only [captureSegs, if_pos, List.mem_cons] at hb
      rcases hb with hb | hb
      · subst hb; simp [rescaleToSegment]
      · exact ih _ _ b hb
    | false =>
      simp only [captureSegs, Bool.false_eq_true, if_false, List.mem_cons] at hb
      rcases hb with hb | hb
      · subst hb; simp [rescaleToSegment]
      · exact ih _ _ b hb

theorem captureSegs_sameGrid_optau (e : List ℚ)
    (segs : List (List ℚ × List ℚ)) (i : ℕ) (r : List ℚ) :
    (captureSegs true e segs i r).map SegBlock.optau = segs.map Prod.fst := by
  induction segs generalizing i r with
  | nil => rfl
  | cons hd rest ih =>
    obtain ⟨iptau, istau⟩ := hd
    simp [captureSegs, ih]

theorem sorted_filter_le_eq_takeWhile (c : ℚ) (l : List ℚ)
    (h : l.Sorted (· ≤ ·)) :
    l.filter (fun x => decide (x ≤ c)) = l.takeWhile (fun x => decide (x ≤ c)) := by
  induction l with
  | nil => rfl
  | cons a t ih =>
    rw [List.sorted_cons] at h
    by_cases hac : a ≤ c
    · simp [List.filter_cons, List.takeWhile_cons, hac, ih h.2]
    · have ht : t.filter (fun x => decide (x ≤ c)) = [] := by
        rw [List.filter_eq_nil_iff]
        intro b hb
        simp only [decide_eq_true_eq]
        intro hbc
        exact hac (le_trans (h.1 b hb) hbc)
      simp [List.filter_cons, List.takeWhile_cons, hac, ht]

theorem drop_takeWhile_length (p : ℚ → Bool) (l : List ℚ) :
    l.drop (l.takeWhile p).length = l.dropWhile p := by
  induction l with
  | nil => rfl
  | cons a t ih =>
    by_cases h : p a
    · simp [List.takeWhile_cons, List.dropWhile_cons, h, ih]
    · simp [List.takeWhile_cons, List.dropWhile_cons, h]

/-- Every output node is consumed by exactly one segment block, in order:
for a sorted remaining-output list and a nonempty segment list, the
concatenation of the captured per-segment node lists is exactly the
remaining-output list. -/
theorem captureSegs_flatten (e : List ℚ) (segs : List (List ℚ × List ℚ))
    (i : ℕ) (r : List ℚ) (hne : segs ≠ []) (hs : r.Sorted (· ≤ ·)) :
    ((captureSegs false e segs i r).map SegBlock.optau).flatten = r := by
  induction segs generalizing i r with
  | nil => exact absurd rfl hne
  | cons hd rest ih =>
    obtain ⟨iptau, istau⟩ := hd
    by_cases hrest : rest = []
    · subst hrest
      simp [captureSegs]
    · have hie : rest.isEmpty = false := by
        cases rest with
        | nil => exact absurd rfl hrest
        | cons a b => rfl
      have hfil := sorted_filter_le_eq_takeWhile (e.getD (i + 1) 0) r hs
      have hsub : (r.dropWhile (fun x => decide (x ≤ e.getD (i + 1) 0))).Sorted (· ≤ ·) :=
        hs.sublist (List.dropWhile_sublist _)
      simp only [captureSegs, hie, Bool.false_eq_true, if_false, List.map_cons,
        List.flatten_cons]
      rw [hfil, drop_takeWhile_length]
      rw [ih (i + 1) _ hrest hsub]
      exact List.takeWhile_append_dropWhile _ _
theorem setup_interp_rows (igd : GridData) (ogdOpt : Option GridData)
    (subset : String) :
    (PseudospectralTimeseriesOutputComp.setup igd ogdOpt subset).interpolation_matrix.rows =
      (((PseudospectralTimeseriesOutputComp.setup igd ogdOpt subset).blocks.map
        SegBlock.optau).flatten).length := by
  simp only [PseudospectralTimeseriesOutputComp.setup, block_diag_shape,
    lagrange_matrices, List.map_map, List.length_flatten]
  apply congrArg List.sum
  apply List.map_congr_left
  intro b hb
  simpa using captureSegs_ostau_len (ogdOpt.isNone) igd.segment_ends
    (igd.seg_ptau.zip igd.seg_stau) 0 ((ogdOpt.getD igd).subset_nodes subset) b hb

theorem setup_interp_cols (igd : GridData) (ogdOpt : Option GridData)
    (subset : String) (hle : igd.seg_stau.length ≤ igd.seg_ptau.length) :
    (PseudospectralTimeseriesOutputComp.setup igd ogdOpt subset).interpolation_matrix.cols =
      (igd.seg_stau.map List.length).sum := by
  simp only [PseudospectralTimeseriesOutputComp.setup, block_diag_shape,
    lagrange_matrices, List.map_map]
  have h1 : List.map
      ((fun m : MatrixShape => m.cols) ∘
        (fun b : SegBlock => (⟨b.ostau.length, b.istau.length⟩ : MatrixShape)))
      (captureSegs (ogdOpt.isNone) igd.segment_ends
        (igd.seg_ptau.zip igd.seg_stau) 0 ((ogdOpt.getD igd).subset_nodes subset)) =
      List.map List.length
        ((captureSegs (ogdOpt.isNone) igd.segment_ends
          (igd.seg_ptau.zip igd.seg_stau) 0
          ((ogdOpt.getD igd).subset_nodes subset)).map SegBlock.istau) := by
    rw [List.map_map]
    rfl
  rw [h1, captureSegs_istau, List.map_snd_zip _ _ hle]

/-- Claim C1: for every valid (input grid, output grid) pair, the
interpolation matrix built during setup has row count equal to the output
node count and column count equal to the input node count; each output
node is assigned to exactly one per-segment block with none omitted (the
concatenation of the per-segment captured node lists is exactly the output
node list, in order); and every segment contributes exactly one block, so
a segment that captures zero output nodes contributes an empty block. -/
theorem claim_C1 (igd : GridData) (ogdOpt : Option GridData) (subset : String)
    (h : ValidGridPair igd ogdOpt subset) :
    (PseudospectralTimeseriesOutputComp.setup igd ogdOpt subset).interpolation_matrix.rows =
      (PseudospectralTimeseriesOutputComp.setup igd ogdOpt subset).output_num_nodes ∧
    (PseudospectralTimeseriesOutputComp.setup igd ogdOpt subset).interpolation_matrix.cols =
      (PseudospectralTimeseriesOutputComp.setup igd ogdOpt subset).input_num_nodes ∧
    (PseudospectralTimeseriesOutputComp.setup igd ogdOpt subset).blocks.length =
      igd.num_segments ∧
    ((PseudospectralTimeseriesOutputComp.setup igd ogdOpt subset).blocks.map
      SegBlock.optau).flatten = (ogdOpt.getD igd).subset_nodes subset := by
  obtain ⟨hne, hlen, hcase⟩ := h
  have hzlen : igd.seg_stau.length = igd.seg_ptau.length := by
    have h2 := congrArg List.length hlen
    simpa using h2
  have hflat : ((PseudospectralTimeseriesOutputComp.setup igd ogdOpt subset).blocks.map
      SegBlock.optau).flatten = (ogdOpt.getD igd).subset_nodes subset := by
    cases ogdOpt with
    | none =>
      obtain ⟨hsub, hall⟩ := hcase
      subst hsub
      simp only [PseudospectralTimeseriesOutputComp.setup, Option.getD_none,
        Option.isNone_none]
      rw [captureSegs_sameGrid_optau, List.map_fst_zip _ _ (le_of_eq hzlen.symm)]
      exact hall.symm
    | some ogd =>
      have hsegs_ne : igd.seg_ptau.zip igd.seg_stau ≠ [] := by
        intro hz
        rcases List.zip_eq_nil_iff.mp hz with h1 | h1
        · exact hne h1
        · apply hne
          rw [h1] at hzlen
          exact List.length_eq_zero.mp hzlen.symm
      simp only [PseudospectralTimeseriesOutputComp.setup, Option.getD_some,
        Option.isNone_some]
      exact captureSegs_flatten _ _ _ _ hsegs_ne hcase
  have hout : (PseudospectralTimeseriesOutputComp.setup igd ogdOpt subset).output_num_nodes =
      ((ogdOpt.getD igd).subset_nodes subset).length := by
    simp [PseudospectralTimeseriesOutputComp.setup]
  refine ⟨?_, ?_, ?_, hflat⟩
  · rw [setup_interp_rows, hflat, hout]
  · rw [setup_interp_cols igd ogdOpt subset (le_of_eq hzlen)]
    have h3 : (igd.seg_stau.map List.length).sum =
        (igd.seg_ptau.map List.length).sum := by rw [hlen]
    rw [h3]
    simp [PseudospectralTimeseriesOutputComp.setup, GridData.num_nodes,
      GridData.node_ptau, List.length_flatten]
  · simp only [PseudospectralTimeseriesOutputComp.setup]
    rw [captureSegs_length, List.length_zip, hzlen, min_self]
    rfl

theorem claim_C1_witness :
    ValidGridPair exampleGrid2 (some exampleGrid3) "all" ∧
    ((PseudospectralTimeseriesOutputComp.setup exampleGrid2 (some exampleGrid3) "all").interpolation_matrix.rows =
      (PseudospectralTimeseriesOutputComp.setup exampleGrid2 (some exampleGrid3) "all").output_num_nodes ∧
    (PseudospectralTimeseriesOutputComp.setup exampleGrid2 (some exampleGrid3) "all").interpolation_matrix.cols =
      (PseudospectralTimeseriesOutputComp.setup exampleGrid2 (some exampleGrid3) "all").input_num_nodes ∧
    (PseudospectralTimeseriesOutputComp.setup exampleGrid2 (some exampleGrid3) "all").blocks.length =
      exampleGrid2.num_segments ∧
    ((PseudospectralTimeseriesOutputComp.setup exampleGrid2 (some exampleGrid3) "all").blocks.map
      SegBlock.optau).flatten = exampleGrid3.subset_nodes "all") :=
  ⟨by constructor
      · decide
      · constructor
        · decide
        · decide,
   claim_C1 exampleGrid2 (some exampleGrid3) "all"
     (by constructor
         · decide
         · constructor
           · decide
           · decide)⟩

/-- Claim C6 counterexample: on a one-segment grid with the output grid
equal to the input grid and subset "all", setup sets the fast path flag,
yet the interpolation and differentiation matrices ARE built (one nonempty
2-by-2 block), contradicting the claim that they are not built. -/
theorem claim_C6_counterexample :
    (PseudospectralTimeseriesOutputComp.setup exampleGrid1 none "all").no_interp = true ∧
    (PseudospectralTimeseriesOutputComp.setup exampleGrid1 none "all").blocks ≠ [] ∧
    (PseudospectralTimeseriesOutputComp.setup exampleGrid1 none "all").interpolation_matrix =
      ⟨2, 2⟩ ∧
    (PseudospectralTimeseriesOutputComp.setup exampleGrid1 none "all").differentiation_matrix =
      ⟨2, 2⟩ := by
  refine ⟨rfl, ?_, rfl, rfl⟩
  decide

/-- Claim C6 (amended): when the output grid equals the input grid and the
output subset is "all", the component sets the no-interpolation fast path
flag, and compute then returns each input's raw values unchanged for
non-rate outputs (both without a stored conversion factor and under the
identity conversion (scale 1, offset 0) stored when input and output units
agree); the interpolation and differentiation matrices are nevertheless
still built, one block per input segment. -/
theorem claim_C6_amended (igd : GridData)
    (hz : igd.seg_stau.length = igd.seg_ptau.length)
    (vals : List ℚ) (interpDot diffDotOverDt : List ℚ → List ℚ) :
    (PseudospectralTimeseriesOutputComp.setup igd none "all").no_interp = true ∧
    (PseudospectralTimeseriesOutputComp.setup igd none "all").blocks.length =
      igd.num_segments ∧
    PseudospectralTimeseriesOutputComp.computeVar true interpDot diffDotOverDt
      vals false none = vals ∧
    PseudospectralTimeseriesOutputComp.computeVar true interpDot diffDotOverDt
      vals false (some (1, 0)) = vals := by
  refine ⟨rfl, ?_, rfl, ?_⟩
  · simp only [PseudospectralTimeseriesOutputComp.setup]
    rw [captureSegs_length, List.length_zip, hz, min_self]
    rfl
  · simp [PseudospectralTimeseriesOutputComp.computeVar]

theorem claim_C6_amended_witness :
    exampleGrid1.seg_stau.length = exampleGrid1.seg_ptau.length ∧
    ((PseudospectralTimeseriesOutputComp.setup exampleGrid1 none "all").no_interp = true ∧
    (PseudospectralTimeseriesOutputComp.setup exampleGrid1 none "all").blocks.length =
      exampleGrid1.num_segments ∧
    PseudospectralTimeseriesOutputComp.computeVar true id id [3, 7] false none = [3, 7] ∧
    PseudospectralTimeseriesOutputComp.computeVar true id id [3, 7] false
      (some (1, 0)) = [3, 7]) :=
  ⟨rfl, claim_C6_amended exampleGrid1 rfl [3, 7] id id⟩

/-- Claim C2: for every connected linkage whose option resolution succeeds,
emission during configure depends only on the classification of the phase-b
variable: class `t` (time) wires phase_a's source to phase_b's `t_initial`
input selecting only the last element (`src_indices=[-1]`,
`flat_src_indices=True`); class state wires it to phase_b's
`initial_states:<var>` input selecting the last node's value
(`om.slicer[-1, ...]`); class parameter wires it to phase_b's
`parameters:<var>` input; and for any other classification of the phase-b
variable, configuration fails with the fatal error telling the user to
remove the linkage or specify `connected=False`. -/
theorem claim_C2 (traj : String) (phases : String → Phase)
    (opts : LinkageOptionsDictionary) (ci : List String)
    (o : LinkageOptionsDictionary)
    (hc : opts.connected = true)
    (hu : Trajectory._update_linkage_options_configure traj phases opts = .ok o) :
    ((phases opts.phase_b).classify_var opts.var_b = .t →
      Trajectory.configure_linkage_step traj phases opts ci =
        .ok (o, [.connect (opts.phase_a ++ "." ++ o.src_a)
          (opts.phase_b ++ ".t_initial") .lastFlat], ci)) ∧
    ((phases opts.phase_b).classify_var opts.var_b = .state →
      Trajectory.configure_linkage_step traj phases opts ci =
        .ok (o, [.connect (opts.phase_a ++ "." ++ o.src_a)
          (opts.phase_b ++ ".initial_states:" ++ opts.var_b) .lastEllipsis], ci)) ∧
    ((phases opts.phase_b).classify_var opts.var_b = .parameter →
      Trajectory.configure_linkage_step traj phases opts ci =
        .ok (o, [.connect (opts.phase_a ++ "." ++ o.src_a)
          (opts.phase_b ++ ".parameters:" ++ opts.var_b) .lastEllipsis], ci)) ∧
    ((phases opts.phase_b).classify_var opts.var_b ≠ .t →
     (phases opts.phase_b).classify_var opts.var_b ≠ .state →
     (phases opts.phase_b).classify_var opts.var_b ≠ .parameter →
      Trajectory.configure_linkage_step traj phases opts ci =
        .error (.invalid_connection_class opts.phase_a opts.var_a
          opts.phase_b opts.var_b)) := by
  refine ⟨fun hcb => ?_, fun hcb => ?_, fun hcb => ?_, fun h1 h2 h3 => ?_⟩
  · simp [Trajectory.configure_linkage_step, hu, hc, hcb]
  · simp [Trajectory.configure_linkage_step, hu, hc, hcb]
  · simp [Trajectory.configure_linkage_step, hu, hc, hcb]
  · cases hcb : (phases opts.phase_b).classify_var opts.var_b <;>
      first
        | exact absurd hcb h1
        | exact absurd hcb h2
        | exact absurd hcb h3
        | simp [Trajectory.configure_linkage_step, hu, hc, hcb]

theorem claim_C2_witness :
    exampleLinkConnected.connected = true ∧
    (examplePhases exampleLinkConnected.phase_b).classify_var
      exampleLinkConnected.var_b = .state ∧
    Trajectory.configure_linkage_step "traj" examplePhases exampleLinkConnected [] =
      .ok ({ exampleLinkConnected with
               units_a := some (some "m")
               units_b := some (some "m")
               units := some (some "m")
               shape := [1]
               src_a := "timeseries.states:x"
               src_b := "timeseries.states:x" },
        [.connect (exampleLinkConnected.phase_a ++ "." ++ "timeseries.states:x")
          (exampleLinkConnected.phase_b ++ ".initial_states:" ++
            exampleLinkConnected.var_b) .lastEllipsis], []) :=
  ⟨rfl, rfl,
    (claim_C2 "traj" examplePhases exampleLinkConnected []
      { exampleLinkConnected with
          units_a := some (some "m")
          units_b := some (some "m")
          units := some (some "m")
          shape := [1]
          src_a := "timeseries.states:x"
          src_b := "timeseries.states:x" } rfl (by rfl)).2.1 rfl⟩

/-- Claim C3: for every constraint-mode (connected=False) linkage whose
option resolution succeeds, if the variables on both sides are fixed at
their locations then configuration fails with the feasibility error whose
payload names the location, variable, and phase of both sides; and the
error is raised only in that case: with at least one free side the step
succeeds. -/
theorem claim_C3 (traj : String) (phases : String → Phase)
    (opts : LinkageOptionsDictionary) (ci : List String)
    (o : LinkageOptionsDictionary)
    (hnc : opts.connected = false)
    (hu : Trajectory._update_linkage_options_configure traj phases opts = .ok o) :
    (Trajectory.fixed_of (phases opts.phase_a)
        ((phases opts.phase_a).classify_var opts.var_a) opts.var_a opts.loc_a = true →
     Trajectory.fixed_of (phases opts.phase_b)
        ((phases opts.phase_b).classify_var opts.var_b) opts.var_b opts.loc_b = true →
      Trajectory.configure_linkage_step traj phases opts ci =
        .error (.both_fixed traj opts.loc_a opts.var_a opts.phase_a
          opts.loc_b opts.var_b opts.phase_b)) ∧
    (Trajectory.fixed_of (phases opts.phase_a)
        ((phases opts.phase_a).classify_var opts.var_a) opts.var_a opts.loc_a = false ∨
     Trajectory.fixed_of (phases opts.phase_b)
        ((phases opts.phase_b).classify_var opts.var_b) opts.var_b opts.loc_b = false →
      ∃ r, Trajectory.configure_linkage_step traj phases opts ci = .ok r) := by
  constructor
  · intro ha hb
    simp [Trajectory.configure_linkage_step, hu, hnc, ha, hb]
  · intro hor
    cases hstep : Trajectory.configure_linkage_step traj phases opts ci with
    | ok r => exact ⟨r, rfl⟩
    | error e =>
      rcases hor with ha | hb
      · simp [Trajectory.configure_linkage_step, hu, hnc, ha] at hstep
      · simp [Trajectory.configure_linkage_step, hu, hnc, hb] at hstep

theorem claim_C3_witness :
    exampleLinkConstraint.connected = false ∧
    Trajectory.fixed_of (examplePhasesFixedB "p1")
      ((examplePhasesFixedB "p1").classify_var "x") "x" "final" = true ∧
    Trajectory.fixed_of (examplePhasesFixedB "p2")
      ((examplePhasesFixedB "p2").classify_var "x") "x" "initial" = true ∧
    Trajectory.configure_linkage_step "traj" examplePhasesFixedB
      exampleLinkConstraint [] =
      .error (.both_fixed "traj" "final" "x" "p1" "initial" "x" "p2") :=
  ⟨rfl, rfl, rfl,
    (claim_C3 "traj" examplePhasesFixedB exampleLinkConstraint []
      { exampleLinkConstraint with
          units_a := some (some "m")
          units_b := some (some "m")
          units := some (some "m")
          shape := [1]
          src_a := "timeseries.states:x"
          src_b := "timeseries.states:x" } rfl (by rfl)).1 rfl rfl⟩

/-- Claim C8: during linkage resolution, a constraint-mode
(connected=False) linkage whose resolved side-a units differ from the
resolved side-b units and which has no explicit units override fails with
the ambiguous-units error carrying both resolved units; in every other
case (including connected linkages and linkages with an explicit units
override) resolution succeeds and the linkage's canonical units are set to
side-a's resolved units. -/
theorem claim_C8 (traj : String) (phases : String → Phase)
    (opts : LinkageOptionsDictionary)
    (sa sb : String) (ua ub : Option String) (sha shb : List ℕ)
    (hra : Trajectory.resolve_linkage_var (phases opts.phase_a) opts.var_a =
      .ok (sa, ua, sha))
    (hrb : Trajectory.resolve_linkage_var (phases opts.phase_b) opts.var_b =
      .ok (sb, ub, shb))
    (hua : opts.units_a = none) (hub : opts.units_b = none) :
    ((opts.connected = false ∧ ua ≠ ub ∧ opts.units = none) →
      Trajectory._update_linkage_options_configure traj phases opts =
        .error (.units_not_specified traj ua ub)) ∧
    (¬(opts.connected = false ∧ ua ≠ ub ∧ opts.units = none) →
      Trajectory._update_linkage_options_configure traj phases opts =
        .ok { opts with
                units_a := some ua
                units_b := some ub
                units := some ua
                shape := shb
                src_a := sa
                src_b := sb }) := by
  constructor
  · intro hcond
    simp [Trajectory._update_linkage_options_configure, hra, hrb, hua, hub,
      hcond]
  · intro hcond
    simp [Trajectory._update_linkage_options_configure, hra, hrb, hua, hub,
      hcond]

theorem claim_C8_witness :
    Trajectory.resolve_linkage_var (examplePhasesFeetB "p1") "x" =
      .ok ("timeseries.states:x", some "m", [1]) ∧
    Trajectory.resolve_linkage_var (examplePhasesFeetB "p2") "x" =
      .ok ("timeseries.states:x", some "ft", [1]) ∧
    Trajectory._update_linkage_options_configure "traj" examplePhasesFeetB
      exampleLinkConstraint =
      .error (.units_not_specified "traj" (some "m") (some "ft")) :=
  ⟨rfl, rfl,
    (claim_C8 "traj" examplePhasesFeetB exampleLinkConstraint
      "timeseries.states:x" "timeseries.states:x" (some "m") (some "ft")
      [1] [1] rfl rfl rfl rfl).1 ⟨rfl, by decide, rfl⟩⟩

/-- Claim C9 counterexample: at a concrete constraint-mode linkage with
mismatched resolved units (meters versus feet) and no override, the unit
mismatch handling of `_update_linkage_options_configure` RAISES the
ambiguous-units ValueError; the condition does not pass silently, so the
claim that a branch of this handling constructs a ValueError and discards
it is false (the discarded ValueError sits in `_configure_parameters`
instead, see the amended theorem). -/
theorem claim_C9_counterexample :
    Trajectory._update_linkage_options_configure "traj" examplePhasesFeetB
      exampleLinkConstraint =
      .error (.units_not_specified "traj" (some "m") (some "ft")) := by
  rfl

/-- Claim C9 (amended): the constructed-but-discarded ValueError is not in
the constraint-mode linkage unit-mismatch handling (which raises); it is
in the units inference of `_configure_parameters` (line 447): when a
trajectory parameter's units are unspecified and its phase targets report
more than one distinct unit, the source constructs a `ValueError(...)`
expression without raising or returning it, so the inference succeeds and
the parameter's units silently remain unspecified. -/
theorem claim_C9_amended (traj name : String) (s : List ℕ)
    (tgt_shapes : List (List ℕ)) (tgt_units : List (Option String))
    (hmix : (tgt_units.dedup).length ≠ 1) :
    Trajectory.infer_parameter_options traj name (some s) none tgt_shapes
      tgt_units = .ok (some s, none) := by
  simp [Trajectory.infer_parameter_options, hmix]

theorem claim_C9_amended_witness :
    ([some "m", some "ft"] : List (Option String)).dedup.length ≠ 1 ∧
    Trajectory.infer_parameter_options "traj" "p" (some [1]) none []
      [some "m", some "ft"] = .ok (some [1], none) :=
  ⟨by decide,
    claim_C9_amended "traj" "p" [1] [] [some "m", some "ft"] (by decide)⟩

/-- Claim C5: timeseries output registration returns False and leaves the
registry state fully unchanged when the output name is already registered;
when the name is new but the source key already has an input slot, it
reuses that slot and returns False (no input is added, the source map is
unchanged, and the new variable record points at the existing slot, so two
output names naming one source key share exactly one input); when the
source key is new, it allocates an input slot of shape
`(input_num_nodes,) + shape` with the given units and returns True,
recording the source key; and the source-key map keeps its keys distinct,
so every distinct source key maps to exactly one input slot. -/
theorem claim_C5 (st : PseudospectralTimeseriesOutputComp.TSState)
    (inn onn : ℕ) (uc : String → String → ℚ × ℚ) (name : String)
    (units : Option String) (shape : List ℕ) (src : Option String)
    (rate : Bool) :
    (∀ v, alFind st.vars name = some v →
      PseudospectralTimeseriesOutputComp._add_output_configure st inn onn uc
        name units shape src rate = (false, st)) ∧
    (alFind st.vars name = none → ∀ iname,
      alFind st.sources src = some iname →
      (PseudospectralTimeseriesOutputComp._add_output_configure st inn onn uc
          name units shape src rate).1 = false ∧
      (PseudospectralTimeseriesOutputComp._add_output_configure st inn onn uc
          name units shape src rate).2.inputs = st.inputs ∧
      (PseudospectralTimeseriesOutputComp._add_output_configure st inn onn uc
          name units shape src rate).2.sources = st.sources ∧
      alFind (PseudospectralTimeseriesOutputComp._add_output_configure st inn
          onn uc name units shape src rate).2.vars name =
        some (iname, name, shape, rate)) ∧
    (alFind st.vars name = none → alFind st.sources src = none →
      (PseudospectralTimeseriesOutputComp._add_output_configure st inn onn uc
          name units shape src rate).1 = true ∧
      (PseudospectralTimeseriesOutputComp._add_output_configure st inn onn uc
          name units shape src rate).2.inputs =
        st.inputs ++ [("input_values:" ++ name, inn :: shape, units)] ∧
      alFind (PseudospectralTimeseriesOutputComp._add_output_configure st inn
          onn uc name units shape src rate).2.sources src =
        some ("input_values:" ++ name)) ∧
    ((st.sources.map Prod.fst).Nodup →
      ((PseudospectralTimeseriesOutputComp._add_output_configure st inn onn uc
          name units shape src rate).2.sources.map Prod.fst).Nodup) := by
  refine ⟨?_, ?_, ?_, ?_⟩
  · intro v hv
    simp [PseudospectralTimeseriesOutputComp._add_output_configure, hv]
  · intro hv iname hs
    refine ⟨?_, ?_, ?_, ?_⟩ <;>
      simp [PseudospectralTimeseriesOutputComp._add_output_configure, hv, hs,
        alFind_alSet_self]
  · intro hv hs
    refine ⟨?_, ?_, ?_⟩ <;>
      simp [PseudospectralTimeseriesOutputComp._add_output_configure, hv, hs,
        alFind_alSet_self]
  · intro hnd
    cases hv : alFind st.vars name with
    | some v =>
      simpa [PseudospectralTimeseriesOutputComp._add_output_configure, hv]
        using hnd
    | none =>
      cases hs : alFind st.sources src with
      | some iname =>
        simpa [PseudospectralTimeseriesOutputComp._add_output_configure, hv,
          hs] using hnd
      | none =>
        simp [PseudospectralTimeseriesOutputComp._add_output_configure, hv, hs]
        exact alSet_keys_nodup _ _ _ hnd

theorem claim_C5_witness :
    alFind emptyTSState.vars "x" = none ∧
    alFind emptyTSState.sources (some "rhs.x") = none ∧
    (PseudospectralTimeseriesOutputComp._add_output_configure emptyTSState 3 5
        exampleUnitConversion "x" (some "m") [1] (some "rhs.x") false).1 = true ∧
    (PseudospectralTimeseriesOutputComp._add_output_configure emptyTSState 3 5
        exampleUnitConversion "x" (some "m") [1] (some "rhs.x") false).2.inputs =
      [("input_values:" ++ "x", 3 :: [1], some "m")] ∧
    alFind (PseudospectralTimeseriesOutputComp._add_output_configure
        emptyTSState 3 5 exampleUnitConversion "x" (some "m") [1]
        (some "rhs.x") false).2.sources (some "rhs.x") =
      some ("input_values:" ++ "x") :=
  ⟨rfl, rfl,
    (claim_C5 emptyTSState 3 5 exampleUnitConversion "x" (some "m") [1]
      (some "rhs.x") false).2.2.1 rfl rfl⟩

/-- Claim C7 counterexample: a connected `('*', '*')` linkage whose
phase_b is an analytic phase that declares no states passes
`_setup_linkages` without any error (the analytic-phase raise sits inside
the loop over `phase2.state_options`, which never executes), contradicting
the claim that setup fails for every connected wildcard linkage into an
analytic phase. -/
theorem claim_C7_counterexample :
    (examplePhaseAnalyticNoStates "traj.phases.p2").is_analytic = true ∧
    (examplePhaseAnalyticNoStates "traj.phases.p2").state_names = [] ∧
    exampleLinkStar.connected = true ∧
    Trajectory._setup_linkages "traj" ["p1", "p2"]
      (fun n => if n = "p2" then examplePhaseAnalyticNoStates "traj.phases.p2"
                else examplePhase "traj.phases.p1")
      [(("p1", "p2"), [(("*", "*"), exampleLinkStar)])] =
      .ok [.set_time_input_initial "p2"] :=
  ⟨rfl, rfl, rfl, rfl⟩

/-- Claim C7 (amended): for a connected linkage into an analytic phase_b,
setup fails with the error naming the trajectory, the two phases and the
variable pair when the phase-b variable is one of phase_b's declared
states (and is named neither `time` nor `*`), or when it is the wildcard
`*` and phase_b declares at least one state; connected linkages to `time`
or to a parameter of the analytic phase raise no error, and neither does a
wildcard when the analytic phase declares no states. -/
theorem claim_C7_amended (traj pa pb va vb : String)
    (phase_names : List String) (phases : String → Phase)
    (opts : LinkageOptionsDictionary)
    (hpa : pa ∈ phase_names) (hpb : pb ∈ phase_names)
    (hconn : opts.connected = true)
    (hana : (phases pb).is_analytic = true) :
    (vb ≠ "time" → vb ≠ "*" → vb ∈ (phases pb).state_names →
      Trajectory._setup_linkages traj phase_names phases
        [((pa, pb), [((va, vb), opts)])] =
        .error (.analytic_phase_link traj pa pb va vb)) ∧
    (vb = "*" → (phases pb).state_names ≠ [] →
      Trajectory._setup_linkages traj phase_names phases
        [((pa, pb), [((va, vb), opts)])] =
        .error (.analytic_phase_link traj pa pb va vb)) ∧
    (vb = "time" →
      ∃ acts, Trajectory._setup_linkages traj phase_names phases
        [((pa, pb), [((va, vb), opts)])] = .ok acts) ∧
    (vb ≠ "time" → vb ≠ "*" → vb ∉ (phases pb).state_names →
     vb ∈ (phases pb).parameter_names →
      ∃ acts, Trajectory._setup_linkages traj phase_names phases
        [((pa, pb), [((va, vb), opts)])] = .ok acts) := by
  refine ⟨?_, ?_, ?_, ?_⟩
  · intro h1 h2 h3
    simp [Trajectory._setup_linkages, Trajectory.setup_linkages_pairs,
      Trajectory.setup_linkage_vars, Trajectory.setup_linkage_var, hpa, hpb,
      hconn, h1, h2, h3, hana]
  · intro h1 h2
    subst h1
    cases hst : (phases pb).state_names with
    | nil => exact absurd hst h2
    | cons s rest =>
      simp [Trajectory._setup_linkages, Trajectory.setup_linkages_pairs,
        Trajectory.setup_linkage_vars, Trajectory.setup_linkage_var,
        Trajectory.setup_star_states, hpa, hpb, hconn, hst, hana]
  · intro h1
    subst h1
    cases hres : Trajectory._setup_linkages traj phase_names phases
        [((pa, pb), [((va, "time"), opts)])] with
    | ok acts => exact ⟨acts, rfl⟩
    | error e =>
      simp [Trajectory._setup_linkages, Trajectory.setup_linkages_pairs,
        Trajectory.setup_linkage_vars, Trajectory.setup_linkage_var, hpa, hpb,
        hconn] at hres
  · intro h1 h2 h3 h4
    cases hres : Trajectory._setup_linkages traj phase_names phases
        [((pa, pb), [((va, vb), opts)])] with
    | ok acts => exact ⟨acts, rfl⟩
    | error e =>
      simp [Trajectory._setup_linkages, Trajectory.setup_linkages_pairs,
        Trajectory.setup_linkage_vars, Trajectory.setup_linkage_var, hpa, hpb,
        hconn, h1, h2, h3, h4] at hres

theorem claim_C7_amended_witness :
    ((fun n => if n = "p2" then examplePhaseAnalytic "traj.phases.p2"
               else examplePhase "traj.phases.p1") "p2").is_analytic = true ∧
    "x" ∈ ((fun n => if n = "p2" then examplePhaseAnalytic "traj.phases.p2"
               else examplePhase "traj.phases.p1") "p2").state_names ∧
    Trajectory._setup_linkages "traj" ["p1", "p2"]
      (fun n => if n = "p2" then examplePhaseAnalytic "traj.phases.p2"
                else examplePhase "traj.phases.p1")
      [(("p1", "p2"), [(("x", "x"), exampleLinkConnected)])] =
      .error (.analytic_phase_link "traj" "p1" "p2" "x" "x") :=
  ⟨rfl, by decide,
    (claim_C7_amended "traj" "p1" "p2" "x" "x" ["p1", "p2"]
      (fun n => if n = "p2" then examplePhaseAnalytic "traj.phases.p2"
                else examplePhase "traj.phases.p1")
      exampleLinkConnected (by decide) (by decide) rfl rfl).1
      (by decide) (by decide) (by decide)⟩

theorem linkages_get_set_self (l : Linkages) (pp vp : String × String)
    (d : LinkageOptionsDictionary) :
    linkages_get (linkages_set l pp vp d) pp vp = some d := by
  cases hf : alFind l pp with
  | none =>
    simp only [linkages_set, hf, linkages_get]
    rw [alFind_append_right _ hf]
    simp [alFind]
  | some inner =>
    simp only [linkages_set, hf, linkages_get]
    rw [alFind_alSet_self]
    exact alFind_alSet_self _ _ _

theorem linkages_set_find_ne (l : Linkages) {pp pp' : String × String}
    (vp : String × String) (d : LinkageOptionsDictionary) (h : pp' ≠ pp) :
    alFind (linkages_set l pp vp d) pp' = alFind l pp' := by
  cases hf : alFind l pp with
  | none =>
    simp only [linkages_set, hf]
    cases hf' : alFind l pp' with
    | none =>
      rw [alFind_append_right _ hf']
      simp [alFind, Ne.symm h]
    | some inner => exact alFind_append_left _ hf'
  | some inner =>
    simp only [linkages_set, hf]
    exact alFind_alSet_ne _ _ h

theorem linkages_get_set_ne_vp (l : Linkages) (pp : String × String)
    {vp vp' : String × String} (d : LinkageOptionsDictionary)
    (h : vp' ≠ vp) :
    linkages_get (linkages_set l pp vp d) pp vp' = linkages_get l pp vp' := by
  cases hf : alFind l pp with
  | none =>
    simp only [linkages_set, hf, linkages_get]
    rw [alFind_append_right _ hf]
    simp [alFind, hf, Ne.symm h]
  | some inner =>
    simp only [linkages_set, hf, linkages_get]
    rw [alFind_alSet_self]
    exact alFind_alSet_ne _ _ h

theorem linkages_pop_find_ne (l : Linkages) {pp pp' : String × String}
    (vp : String × String) (h : pp' ≠ pp) :
    alFind (linkages_pop l pp vp) pp' = alFind l pp' := by
  cases hf : alFind l pp with
  | none => simp [linkages_pop, hf]
  | some inner =>
    simp only [linkages_pop, hf]
    exact alFind_alSet_ne _ _ h

/-- Claim C10: calling `add_linkage_constraint` a second time with the
same ordered phase pair and the same variable pair raises no error and
silently replaces the previously stored linkage specification with the new
one (last write wins), while every other entry — other variable pairs of
that phase pair and every other phase pair — is unchanged. -/
theorem claim_C10 (links : Linkages) (pa pb va vb : String)
    (loc_a loc_b : String) (ma mb : ℚ) (units : Option (Option String))
    (lower upper equals scaler adder ref0 ref : Option ℚ)
    (linear connected : Bool)
    (loc_a' loc_b' : String) (ma' mb' : ℚ) (units' : Option (Option String))
    (lower' upper' equals' scaler' adder' ref0' ref' : Option ℚ)
    (linear' connected' : Bool) :
    ∃ l1 l2,
      Trajectory.add_linkage_constraint links pa pb va vb loc_a loc_b
        none none (some ma) (some mb) units lower upper equals scaler adder
        ref0 ref linear connected = .ok l1 ∧
      Trajectory.add_linkage_constraint l1 pa pb va vb loc_a' loc_b'
        none none (some ma') (some mb') units' lower' upper' equals' scaler'
        adder' ref0' ref' linear' connected' = .ok l2 ∧
      linkages_get l1 (pa, pb) (va, vb) =
        some (Trajectory.mkLinkageOptions pa pb va vb loc_a loc_b ma mb
          units lower upper equals scaler adder ref0 ref linear connected) ∧
      linkages_get l2 (pa, pb) (va, vb) =
        some (Trajectory.mkLinkageOptions pa pb va vb loc_a' loc_b' ma' mb'
          units' lower' upper' equals' scaler' adder' ref0' ref' linear'
          connected') ∧
      (∀ pp, pp ≠ (pa, pb) → alFind l2 pp = alFind l1 pp) ∧
      (∀ vp, vp ≠ (va, vb) →
        linkages_get l2 (pa, pb) vp = linkages_get l1 (pa, pb) vp) := by
  refine ⟨Trajectory.add_linkage_constraint_core links pa pb va vb loc_a loc_b
      ma mb units lower upper equals scaler adder ref0 ref linear connected,
    Trajectory.add_linkage_constraint_core
      (Trajectory.add_linkage_constraint_core links pa pb va vb loc_a loc_b
        ma mb units lower upper equals scaler adder ref0 ref linear connected)
      pa pb va vb loc_a' loc_b' ma' mb' units' lower' upper' equals' scaler'
      adder' ref0' ref' linear' connected',
    ?_, ?_, ?_, ?_, ?_, ?_⟩
  · simp [Trajectory.add_linkage_constraint]
  · simp [Trajectory.add_linkage_constraint]
  · exact linkages_get_set_self _ _ _ _
  · exact linkages_get_set_self _ _ _ _
  · intro pp hpp
    exact linkages_set_find_ne _ _ _ hpp
  · intro vp hvp
    exact linkages_get_set_ne_vp _ _ _ hvp

theorem expand_entry_noop (phases : String → Phase) (acc : Linkages)
    (pp vp : String × String) (o : LinkageOptionsDictionary)
    (h : vp ≠ ("*", "*")) :
    Trajectory.expand_entry phases acc pp vp o = acc := by
  simp [Trajectory.expand_entry, h]

theorem expand_inner_noops (phases : String → Phase) (pp : String × String) :
    ∀ (es : List ((String × String) × LinkageOptionsDictionary))
      (acc : Linkages), (∀ e ∈ es, e.1 ≠ ("*", "*")) →
      es.foldl (fun a e => Trajectory.expand_entry phases a pp e.1 e.2) acc = acc := by
  intro es
  induction es with
  | nil => intro acc _; rfl
  | cons hd rest ih =>
    intro acc h
    rw [List.foldl_cons,
      expand_entry_noop phases acc pp hd.1 hd.2 (h hd (List.mem_cons_self _ _)),
      ih acc (fun e he => h e (List.mem_cons_of_mem _ he))]

theorem core_find_ne (acc : Linkages) (q1 q2 s1 s2 la lb : String)
    (ma mb : ℚ) (u : Option (Option String))
    (b1 b2 b3 b4 b5 b6 b7 : Option ℚ) (x y : Bool)
    {pp : String × String} (h : (q1, q2) ≠ pp) :
    alFind (Trajectory.add_linkage_constraint_core acc q1 q2 s1 s2 la lb ma mb
      u b1 b2 b3 b4 b5 b6 b7 x y) pp = alFind acc pp := by
  simp only [Trajectory.add_linkage_constraint_core]
  exact linkages_set_find_ne _ _ _ (Ne.symm h)

theorem states_fold_find_ne (q1 q2 la lb : String) (ma mb : ℚ)
    {pp : String × String} (h : (q1, q2) ≠ pp) :
    ∀ (ss : List String) (acc : Linkages),
      alFind (ss.foldl (fun a s => Trajectory.add_linkage_constraint_core a q1
        q2 s s la lb ma mb none none none none none none none none false
        false) acc) pp = alFind acc pp := by
  intro ss
  induction ss with
  | nil => intro acc; rfl
  | cons s rest ih =>
    intro acc
    rw [List.foldl_cons, ih]
    exact core_find_ne acc q1 q2 s s la lb ma mb none none none none none
      none none none false false h

theorem expand_entry_find_ne (phases : String → Phase) (acc : Linkages)
    (q : String × String) (vp : String × String)
    (o : LinkageOptionsDictionary) {pp : String × String} (h : q ≠ pp) :
    alFind (Trajectory.expand_entry phases acc q vp o) pp = alFind acc pp := by
  obtain ⟨q1, q2⟩ := q
  by_cases hv : vp = ("*", "*")
  · subst hv
    simp only [Trajectory.expand_entry, if_true]
    rw [linkages_pop_find_ne _ _ (Ne.symm h), states_fold_find_ne _ _ _ _ _ _ h]
    exact core_find_ne acc q1 q2 "time" "time" o.loc_a o.loc_b o.mult_a
      o.mult_b none none none none none none none none false false h
  · rw [expand_entry_noop phases acc _ vp o hv]

theorem expand_dict_find_ne (phases : String → Phase) (q : String × String)
    {pp : String × String} (h : q ≠ pp) :
    ∀ (dict : List ((String × String) × LinkageOptionsDictionary))
      (acc : Linkages),
      alFind (dict.foldl (fun a e => Trajectory.expand_entry phases a q e.1
        e.2) acc) pp = alFind acc pp := by
  intro dict
  induction dict with
  | nil => intro acc; rfl
  | cons hd rest ih =>
    intro acc
    rw [List.foldl_cons, ih, expand_entry_find_ne phases acc q hd.1 hd.2 h]

theorem expand_outer_find_ne (phases : String → Phase) {pp : String × String} :
    ∀ (entries : Linkages) (acc : Linkages), (∀ e ∈ entries, e.1 ≠ pp) →
      alFind (entries.foldl (fun acc entry => entry.2.foldl
        (fun a e => Trajectory.expand_entry phases a entry.1 e.1 e.2) acc)
        acc) pp = alFind acc pp := by
  intro entries
  induction entries with
  | nil => intro acc _; rfl
  | cons hd rest ih =>
    intro acc h
    rw [List.foldl_cons, ih _ (fun e he => h e (List.mem_cons_of_mem _ he)),
      expand_dict_find_ne phases hd.1 (h hd (List.mem_cons_self _ _)) hd.2 acc]

theorem expand_states_fold (pa pb la lb : String) (ma mb : ℚ) :
    ∀ (ss : List String) (acc : Linkages)
      (J : List ((String × String) × LinkageOptionsDictionary)),
      alFind acc (pa, pb) = some J →
      (∀ s ∈ ss, alFind J (s, s) = none) →
      ss.Nodup →
      alFind (ss.foldl (fun a s => Trajectory.add_linkage_constraint_core a pa
        pb s s la lb ma mb none none none none none none none none false
        false) acc) (pa, pb) =
        some (J ++ ss.map (fun s => ((s, s),
          Trajectory.mkLinkageOptions pa pb s s la lb ma mb none none none
            none none none none none false false))) := by
  intro ss
  induction ss with
  | nil =>
    intro acc J hacc _ _
    simpa using hacc
  | cons s rest ih =>
    intro acc J hacc hfresh hnd
    rw [List.foldl_cons]
    have hacc' : alFind (Trajectory.add_linkage_constraint_core acc pa pb s s
        la lb ma mb none none none none none none none none false false)
        (pa, pb) =
        some (J ++ [((s, s), Trajectory.mkLinkageOptions pa pb s s la lb ma mb
          none none none none none none none none false false)]) := by
      simp only [Trajectory.add_linkage_constraint_core, linkages_set, hacc]
      rw [alFind_alSet_self,
        alSet_of_find_none _ (hfresh s (List.mem_cons_self _ _))]
    have hnds := List.nodup_cons.mp hnd
    have hfresh' : ∀ s' ∈ rest,
        alFind (J ++ [((s, s), Trajectory.mkLinkageOptions pa pb s s la lb ma
          mb none none none none none none none none false false)])
          (s', s') = none := by
      intro s' hs'
      rw [alFind_append_right _ (hfresh s' (List.mem_cons_of_mem _ hs'))]
      have hne : ((s, s) : String × String) ≠ (s', s') := by
        intro hcontra
        injection hcontra with h1 h2
        subst h1
        exact hnds.1 hs'
      simp [alFind, hne]
    rw [ih _ _ hacc' hfresh' hnds.2]
    simp [List.append_assoc]

theorem alErase_decomp {κ α : Type} [DecidableEq κ] {k : κ} (v : α)
    (l1 l2 : List (κ × α)) (h : ∀ e ∈ l1, e.1 ≠ k) :
    alErase k (l1 ++ (k, v) :: l2) = l1 ++ l2 := by
  induction l1 with
  | nil => simp [alErase]
  | cons hd t ih =>
    have h1 := h hd (List.mem_cons_self _ _)
    simp only [List.cons_append, alErase, h1, if_false, List.append_eq]
    rw [ih (fun e he => h e (List.mem_cons_of_mem _ he))]

theorem expand_entry_wildcard (phases : String → Phase) (acc : Linkages)
    (pa pb : String) (o o' : LinkageOptionsDictionary)
    (J : List ((String × String) × LinkageOptionsDictionary))
    (hacc : alFind acc (pa, pb) = some J)
    (hwc : alFind J ("*", "*") = some o')
    (ht : alFind J ("time", "time") = none)
    (hs : ∀ s ∈ (phases pb).state_names, alFind J (s, s) = none)
    (hnd : (phases pb).state_names.Nodup)
    (hnt : "time" ∉ (phases pb).state_names) :
    alFind (Trajectory.expand_entry phases acc (pa, pb) ("*", "*") o)
      (pa, pb) =
      some (alErase ("*", "*") J ++
        ((("time", "time"), Trajectory.mkLinkageOptions pa pb "time" "time"
            o.loc_a o.loc_b o.mult_a o.mult_b none none none none none none
            none none false false) ::
          (phases pb).state_names.map (fun s => ((s, s),
            Trajectory.mkLinkageOptions pa pb s s o.loc_a o.loc_b o.mult_a
              o.mult_b none none none none none none none none false
              false)))) := by
  simp only [Trajectory.expand_entry, if_true]
  have h1 : alFind (Trajectory.add_linkage_constraint_core acc pa pb "time"
      "time" o.loc_a o.loc_b o.mult_a o.mult_b none none none none none none
      none none false false) (pa, pb) =
      some (J ++ [(("time", "time"), Trajectory.mkLinkageOptions pa pb "time"
        "time" o.loc_a o.loc_b o.mult_a o.mult_b none none none none none
        none none none false false)]) := by
    simp only [Trajectory.add_linkage_constraint_core, linkages_set, hacc]
    rw [alFind_alSet_self, alSet_of_find_none _ ht]
  have hfresh1 : ∀ s ∈ (phases pb).state_names,
      alFind (J ++ [(("time", "time"), Trajectory.mkLinkageOptions pa pb
        "time" "time" o.loc_a o.loc_b o.mult_a o.mult_b none none none none
        none none none none false false)]) (s, s) = none := by
    intro s hs'
    rw [alFind_append_right _ (hs s hs')]
    have hne : (("time", "time") : String × String) ≠ (s, s) := by
      intro hcontra
      injection hcontra with hx hy
      subst hx
      exact hnt hs'
    simp [alFind, hne]
  have h2 := expand_states_fold pa pb o.loc_a o.loc_b o.mult_a o.mult_b
    (phases pb).state_names _ _ h1 hfresh1 hnd
  simp only [linkages_pop, h2]
  rw [alFind_alSet_self]
  congr 1
  rw [List.append_assoc, alErase_append_left _ hwc]
  rfl

/-- Claim C4: for a phase pair whose linkage dictionary contains the
variable pair `('*', '*')`, expansion during configure replaces that entry
with exactly one linkage for `time` plus one linkage per state declared on
phase_b, in that order, each inheriting only the wildcard's `loc_a`,
`loc_b`, `mult_a` and `mult_b` options (all other options at their
declaration defaults), and the wildcard entry itself is removed from the
registry; the other entries of that phase pair are kept.  For a phase_b
with states `x` and `v` and a dictionary holding only the wildcard this
gives exactly 3 linkages: time, x, v. -/
theorem claim_C4 (phases : String → Phase) (opre opost : Linkages)
    (ipre ipost : List ((String × String) × LinkageOptionsDictionary))
    (pa pb : String) (o : LinkageOptionsDictionary)
    (hpre : ∀ e ∈ opre, e.1 ≠ (pa, pb))
    (hpost : ∀ e ∈ opost, e.1 ≠ (pa, pb))
    (hipre : ∀ e ∈ ipre, e.1 ≠ ("*", "*"))
    (hipost : ∀ e ∈ ipost, e.1 ≠ ("*", "*"))
    (ht : alFind (ipre ++ (("*", "*"), o) :: ipost) ("time", "time") = none)
    (hs : ∀ s ∈ (phases pb).state_names,
      alFind (ipre ++ (("*", "*"), o) :: ipost) (s, s) = none)
    (hnd : (phases pb).state_names.Nodup)
    (hnt : "time" ∉ (phases pb).state_names)
    (hns : "*" ∉ (phases pb).state_names) :
    alFind (Trajectory._expand_star_linkage_configure phases
        (opre ++ ((pa, pb), ipre ++ (("*", "*"), o) :: ipost) :: opost))
      (pa, pb) =
      some ((ipre ++ ipost) ++
        ((("time", "time"), Trajectory.mkLinkageOptions pa pb "time" "time"
            o.loc_a o.loc_b o.mult_a o.mult_b none none none none none none
            none none false false) ::
          (phases pb).state_names.map (fun s => ((s, s),
            Trajectory.mkLinkageOptions pa pb s s o.loc_a o.loc_b o.mult_a
              o.mult_b none none none none none none none none false
              false)))) ∧
    linkages_get (Trajectory._expand_star_linkage_configure phases
        (opre ++ ((pa, pb), ipre ++ (("*", "*"), o) :: ipost) :: opost))
      (pa, pb) ("*", "*") = none := by
  have hfind0 : alFind
      (opre ++ ((pa, pb), ipre ++ (("*", "*"), o) :: ipost) :: opost)
      (pa, pb) = some (ipre ++ (("*", "*"), o) :: ipost) := by
    rw [alFind_append_right _ (alFind_eq_none_of_keys hpre)]
    simp [alFind]
  have hwc : alFind (ipre ++ (("*", "*"), o) :: ipost) ("*", "*") = some o := by
    rw [alFind_append_right _ (alFind_eq_none_of_keys hipre)]
    simp [alFind]
  have hmain : alFind (Trajectory._expand_star_linkage_configure phases
      (opre ++ ((pa, pb), ipre ++ (("*", "*"), o) :: ipost) :: opost))
      (pa, pb) =
      some ((ipre ++ ipost) ++
        ((("time", "time"), Trajectory.mkLinkageOptions pa pb "time" "time"
            o.loc_a o.loc_b o.mult_a o.mult_b none none none none none none
            none none false false) ::
          (phases pb).state_names.map (fun s => ((s, s),
            Trajectory.mkLinkageOptions pa pb s s o.loc_a o.loc_b o.mult_a
              o.mult_b none none none none none none none none false
              false)))) := by
    rw [Trajectory._expand_star_linkage_configure, List.foldl_append,
      List.foldl_cons]
    rw [expand_outer_find_ne phases opost _ hpost]
    have haccP : alFind (opre.foldl (fun acc entry => entry.2.foldl
        (fun a e => Trajectory.expand_entry phases a entry.1 e.1 e.2) acc)
        (opre ++ ((pa, pb), ipre ++ (("*", "*"), o) :: ipost) :: opost))
        (pa, pb) = some (ipre ++ (("*", "*"), o) :: ipost) := by
      rw [expand_outer_find_ne phases opre _ hpre]
      exact hfind0
    rw [List.foldl_append, List.foldl_cons]
    rw [expand_inner_noops phases (pa, pb) ipre _ hipre]
    rw [expand_inner_noops phases (pa, pb) ipost _ hipost]
    rw [expand_entry_wildcard phases _ pa pb o o _ haccP hwc ht hs hnd hnt]
    rw [alErase_decomp o ipre ipost hipre]
  refine ⟨hmain, ?_⟩
  simp only [linkages_get, hmain]
  apply alFind_eq_none_of_keys
  intro e he
  rcases List.mem_append.mp he with he1 | he2
  · rcases List.mem_append.mp he1 with h1 | h2
    · exact hipre e h1
    · exact hipost e h2
  · rcases List.mem_cons.mp he2 with h1 | h2
    · rw [h1]
      intro hcontra
      injection hcontra with hx hy
      exact absurd hx (by decide)
    · rcases List.mem_map.mp h2 with ⟨s, hsmem, hse⟩
      rw [← hse]
      intro hcontra
      injection hcontra with hx hy
      subst hx
      exact hns hsmem

theorem claim_C4_witness :
    alFind (Trajectory._expand_star_linkage_configure examplePhases
        [(("p1", "p2"), [(("*", "*"), exampleLinkStar)])]) ("p1", "p2") =
      some [(("time", "time"), Trajectory.mkLinkageOptions "p1" "p2" "time"
          "time" "final" "initial" 1 (-1) none none none none none none none
          none false false),
        (("x", "x"), Trajectory.mkLinkageOptions "p1" "p2" "x" "x" "final"
          "initial" 1 (-1) none none none none none none none none false
          false),
        (("v", "v"), Trajectory.mkLinkageOptions "p1" "p2" "v" "v" "final"
          "initial" 1 (-1) none none none none none none none none false
          false)] ∧
    linkages_get (Trajectory._expand_star_linkage_configure examplePhases
        [(("p1", "p2"), [(("*", "*"), exampleLinkStar)])]) ("p1", "p2")
      ("*", "*") = none :=
  claim_C4 examplePhases [] [] [] [] "p1" "p2" exampleLinkStar
    (by simp) (by simp) (by simp) (by simp) rfl
    (by intro s hs
        simp [examplePhases, examplePhase] at hs
        rcases hs with rfl | rfl <;> rfl)
    (by decide) (by decide) (by decide)
